import Mathlib

/-!
Verification of the tic-tac-toe server (`Room.py`, `server.py`, `client.py`).

Connections are modelled as natural-number identities (`Sock`); the source
compares sockets by their address pairs (`is_same_socket`), which the model
renders as plain equality of identities.  Python dictionaries are modelled as
insertion-ordered association lists (`dictSet` replaces in place or appends,
exactly like CPython dict assignment).  Operations that can raise an uncaught
Python exception (IndexError, KeyError, NameError, ValueError) return
`Option`/a dedicated `error` result, with `none`/`error` standing for the
exception.
-/

namespace TTT

abbrev Sock := Nat

/-- `is_same_socket` from `Room.py`/`server.py`: socket identity comparison
(the source compares address pairs; identities here are already canonical). -/
def is_same_socket (socket1 socket2 : Sock) : Bool :=
  socket1 == socket2

/-- CPython dict item lookup `d[key]` / `d.get(key)`: first (unique) binding. -/
def dictLookup {α β : Type} [DecidableEq α] (d : List (α × β)) (key : α) : Option β :=
  match d with
  | [] => none
  | kv :: rest => if kv.1 = key then some kv.2 else dictLookup rest key

/-- CPython dict assignment `d[key] = val`: replace in place, else append. -/
def dictSet {α β : Type} [DecidableEq α] (d : List (α × β)) (key : α) (val : β) :
    List (α × β) :=
  match d with
  | [] => [(key, val)]
  | kv :: rest => if kv.1 = key then (key, val) :: rest else kv :: dictSet rest key val

/-- The dict comprehension `{k: v for k, v in d.items() if k != key}`. -/
def dictRemove {α β : Type} [DecidableEq α] (d : List (α × β)) (key : α) :
    List (α × β) :=
  match d with
  | [] => []
  | kv :: rest => if kv.1 = key then dictRemove rest key else kv :: dictRemove rest key

/-- Python list indexing `l[i]`: negative indices count from the end,
anything else raises IndexError (`none`). -/
def pyIndex (n : Nat) (i : Int) : Option Nat :=
  if 0 ≤ i ∧ i < (n : Int) then some i.toNat
  else if -(n : Int) ≤ i ∧ i < 0 then some (i + n).toNat
  else none

/-- Python `m[row][column] = v` on a list-of-lists board. -/
def pySetCell (m : List (List Nat)) (row col : Int) (v : Nat) :
    Option (List (List Nat)) := do
  let ri ← pyIndex m.length row
  let theRow ← m.get? ri
  let ci ← pyIndex theRow.length col
  some (m.set ri (theRow.set ci v))

/-- Cell access `m[i][j]` for in-range natural indices. -/
def cellAt (m : List (List Nat)) (i j : Nat) : Option Nat :=
  (m.get? i).bind (fun row => row.get? j)

/-- `Room` from `Room.py`: one match's state.  Cells hold 0 (empty),
1 (slot-0 mark) or 2 (slot-1 mark). -/
structure Room where
  players : List Sock
  viewers : List Sock
  max_players : Nat
  matrix : List (List Nat)
  current_player : Sock
  has_end : Bool
  status_code : String
  has_began : Bool
deriving Repr, DecidableEq

/-- `Room.__init__(sender_socket)`. -/
def Room.mk_new (sender_socket : Sock) : Room :=
  { players := [sender_socket]
    viewers := []
    max_players := 2
    matrix := [[0, 0, 0], [0, 0, 0], [0, 0, 0]]
    current_player := sender_socket
    has_end := false
    status_code := "3"
    has_began := false }

/-- `Room.join(mode)`: the returned status string, together with the
mutation the method performs on the room object. -/
def Room.join (r : Room) (mode : String) : Room × String :=
  if mode = "PLAYER" then
    if r.players.length < r.max_players then
      ({ r with has_began := true }, "JOIN:ACKSTATUS:0")
    else (r, "JOIN:ACKSTATUS:2")
  else (r, "JOIN:ACKSTATUS:0")

/-- `Room.check_rows`. -/
def Room.check_rows (r : Room) : Bool :=
  r.matrix.any (fun row =>
    match row.get? 0, row.get? 1, row.get? 2 with
    | some a, some b, some c => a == b && b == c && a != 0
    | _, _, _ => false)

/-- `Room.check_columns`. -/
def Room.check_columns (r : Room) : Bool :=
  (List.range 3).any (fun col =>
    match cellAt r.matrix 0 col, cellAt r.matrix 1 col, cellAt r.matrix 2 col with
    | some a, some b, some c => a == b && b == c && a != 0
    | _, _, _ => false)

/-- `Room.check_diagonals`. -/
def Room.check_diagonals (r : Room) : Bool :=
  (match cellAt r.matrix 0 0, cellAt r.matrix 1 1, cellAt r.matrix 2 2 with
   | some a, some b, some c => a == b && b == c && a != 0
   | _, _, _ => false) ||
  (match cellAt r.matrix 0 2, cellAt r.matrix 1 1, cellAt r.matrix 2 0 with
   | some a, some b, some c => a == b && b == c && a != 0
   | _, _, _ => false)

/-- `Room.is_board_full`: `all(0 not in row for row in self.matrix)`. -/
def Room.is_board_full (r : Room) : Bool :=
  r.matrix.all (fun row => !(decide (0 ∈ row)))

/-- `Room.check_end_status`. -/
def Room.check_end_status (r : Room) : Room :=
  if r.check_rows || r.check_columns || r.check_diagonals then
    { r with status_code := "0", has_end := true }
  else if r.is_board_full then
    { r with status_code := "1", has_end := true }
  else r

/-- `Room.get_matrix_in_string`: `''.join(str(num) for row in m for num in row)`. -/
def Room.get_matrix_in_string (r : Room) : String :=
  String.join ((r.matrix.flatMap (fun row => row)).map (fun num => toString num))

/-- `Room.get_current_player` (IndexError on too few players is `none`). -/
def Room.get_current_player (r : Room) : Option Sock :=
  match r.players.get? 0 with
  | none => none
  | some p0 => if r.current_player = p0 then some p0 else r.players.get? 1

/-- `Room.get_next_turn_player` (IndexError on too few players is `none`). -/
def Room.get_next_turn_player (r : Room) : Option Sock :=
  match r.players.get? 0 with
  | none => none
  | some p0 => if r.current_player = p0 then r.players.get? 1 else some p0

/-- `Room.update_matrix(row, column)`: writes the current mover's mark,
flips the turn, then runs `check_end_status`.  `none` is the uncaught
IndexError the Python raises on a bad index or missing player slot. -/
def Room.update_matrix (r : Room) (row column : Int) : Option Room := do
  let p0 ← r.players.get? 0
  if r.current_player = p0 then
    let m ← pySetCell r.matrix row column 1
    let p1 ← r.players.get? 1
    some (Room.check_end_status { r with matrix := m, current_player := p1 })
  else
    let m ← pySetCell r.matrix row column 2
    some (Room.check_end_status { r with matrix := m, current_player := p0 })

/-- `Room.update(sender_socket, mode)`: add a player or viewer. -/
def Room.update (r : Room) (sender_socket : Sock) (mode : String) : Room :=
  if mode = "PLAYER" then
    if r.players.length < r.max_players then
      { r with players := r.players ++ [sender_socket], has_began := true }
    else r
  else if mode = "VIEWER" then
    { r with viewers := r.viewers ++ [sender_socket] }
  else r

/-- `Room.get_another_player(sender_socket)`; `none` is the IndexError
raised when the room has fewer than two players. -/
def Room.get_another_player (r : Room) (sender_socket : Sock) : Option Sock :=
  match r.players.get? 0, r.players.get? 1 with
  | some p0, some p1 => if p0 = sender_socket then some p1 else some p0
  | _, _ => none

/-- `Room.able_to_add_player`. -/
def Room.able_to_add_player (r : Room) : Bool :=
  r.players.length < r.max_players

/-- `Room.in_room_as_a_player(sender_socket)`. -/
def Room.in_room_as_a_player (r : Room) (sender_socket : Sock) : Bool :=
  r.players.any (fun player_socket => is_same_socket player_socket sender_socket)

/-- Python `message.split(":")` on the underlying character list. -/
def splitOnColon (l : List Char) : List String :=
  match l with
  | [] => [""]
  | c :: rest =>
    let r := splitOnColon rest
    if c = ':' then "" :: r
    else
      match r with
      | [] => [String.mk [c]]
      | piece :: tail => String.mk (c :: piece.data) :: tail

/-- Python `message.split(":")`. -/
def pySplitColon (message : String) : List String :=
  splitOnColon message.data

/-- Python `int(text)` for optionally-negated decimal digit strings;
`none` is the ValueError raised on anything else. -/
def pyDigits (l : List Char) : Option Nat :=
  match l with
  | [] => none
  | _ =>
    l.foldl
      (fun acc c =>
        match acc with
        | none => none
        | some n => if c.isDigit then some (n * 10 + (c.toNat - '0'.toNat)) else none)
      (some 0)

/-- Python `int(text)`. -/
def pyInt (text : String) : Option Int :=
  match text.data with
  | '-' :: rest => (pyDigits rest).map (fun n => -(n : Int))
  | l => (pyDigits l).map (fun n => (n : Int))

/-- A unicast send: target socket and message text. -/
abbrev Msg := Sock × String

/-- `Room.send_to_all_viewers(message)` as the list of sends it performs. -/
def Room.send_to_all_viewers (r : Room) (message : String) : List Msg :=
  r.viewers.map (fun viewer => (viewer, message))

/-- The shared server-side state: the four `multiprocessing.Manager` dicts
of `server.py` (`clients`, `authenticated_clients`, `users`, `rooms`). -/
structure ServerState where
  clients : List (Sock × Option String)
  authenticated_clients : List (Sock × String)
  users : List (String × String)
  rooms : List (String × Room)
deriving Repr, DecidableEq

namespace Server

/-- `get_key_by_value(d, value)` from `server.py`. -/
def get_key_by_value (d : List (Sock × String)) (value : String) : Option Sock :=
  (d.find? (fun kv => kv.2 = value)).map (fun kv => kv.1)

/-- `check_authorizations(sender_socket, authenticated_clients)`. -/
def check_authorizations (sender_socket : Sock)
    (authenticated_clients : List (Sock × String)) : Bool :=
  authenticated_clients.any (fun kv => is_same_socket kv.1 sender_socket)

/-- `login(splited_message, sender_socket, authenticated_clients, users)`.
`bcrypt.checkpw` is the external credential collaborator, abstracted as
`checkpw password storedHash`. -/
def login (checkpw : String → String → Bool) (splited_message : List String)
    (sender_socket : Sock) (s : ServerState) : ServerState × List Msg :=
  match splited_message with
  | [username, password] =>
    if username = "" ∨ password = "" then
      (s, [(sender_socket, "LOGIN:ACKSTATUS:3")])
    else
      match dictLookup s.users username with
      | none => (s, [(sender_socket, "LOGIN:ACKSTATUS:1")])
      | some stored =>
        if checkpw password stored then
          if (s.authenticated_clients.map (fun kv => kv.2)).contains username then
            (s, [(sender_socket, "LOGIN:ACKSTATUS:4")])
          else if check_authorizations sender_socket s.authenticated_clients then
            (s, [(sender_socket, "LOGIN:ACKSTATUS:5")])
          else
            ({ s with authenticated_clients :=
                 dictSet s.authenticated_clients sender_socket username },
             [(sender_socket, "LOGIN:ACKSTATUS:0")])
        else (s, [(sender_socket, "LOGIN:ACKSTATUS:2")])
  | _ => (s, [(sender_socket, "LOGIN:ACKSTATUS:3")])

/-- `register(splited_message, sender_socket, users, user_database_path)`;
`hashpw` abstracts `hash_password`, and the JSON-file persistence is the
external credential store. -/
def register (hashpw : String → String) (splited_message : List String)
    (sender_socket : Sock) (s : ServerState) : ServerState × List Msg :=
  match splited_message with
  | [username, password] =>
    if username = "" ∨ password = "" then
      (s, [(sender_socket, "REGISTER:ACKSTATUS:2")])
    else if (dictLookup s.users username).isSome then
      (s, [(sender_socket, "REGISTER:ACKSTATUS:1")])
    else
      ({ s with users := dictSet s.users username (hashpw password) },
       [(sender_socket, "REGISTER:ACKSTATUS:0")])
  | _ => (s, [(sender_socket, "REGISTER:ACKSTATUS:2")])

/-- Character class of the room-name pattern `[a-zA-Z0-9 _-]`. -/
def legal_room_char (c : Char) : Bool :=
  c.isAlpha || c.isDigit || c = ' ' || c = '_' || c = '-'

/-- `check_legal_room_name(room_name)`: `re.match(r'^[a-zA-Z0-9 _-]{1,20}$', ...)`
(messages are stripped before splitting, so the `$`-before-final-newline
subtlety of `re` cannot arise). -/
def check_legal_room_name (room_name : String) : Bool :=
  decide (1 ≤ room_name.length) && decide (room_name.length ≤ 20) &&
    room_name.data.all legal_room_char

/-- `create_room(splited_message, sender_socket, rooms, clients)`. -/
def create_room (splited_message : List String) (sender_socket : Sock)
    (s : ServerState) : ServerState × List Msg :=
  match splited_message with
  | [new_room_name] =>
    if check_legal_room_name new_room_name then
      if (dictLookup s.rooms new_room_name).isSome then
        (s, [(sender_socket, "CREATE:ACKSTATUS:2")])
      else if s.rooms.length = 256 then
        (s, [(sender_socket, "CREATE:ACKSTATUS:3")])
      else
        let new_room := Room.mk_new sender_socket
        let new_clients :=
          dictSet (dictRemove s.clients sender_socket) sender_socket
            (some new_room_name)
        let s2 := { s with rooms := dictSet s.rooms new_room_name new_room,
                           clients := new_clients }
        (s2, [(sender_socket, "CREATE:ACKSTATUS:0")])
    else (s, [(sender_socket, "CREATE:ACKSTATUS:1")])
  | _ => (s, [(sender_socket, "CREATE:ACKSTATUS:4")])

/-- `room_list(splited_message, sender_socket, rooms)`. -/
def room_list (splited_message : List String) (sender_socket : Sock)
    (s : ServerState) : ServerState × List Msg :=
  match splited_message with
  | [client_type] =>
    if client_type ≠ "PLAYER" ∧ client_type ≠ "VIEWER" then
      (s, [(sender_socket, "ROOMLIST:ACKSTATUS:1")])
    else
      let rooms_name_list :=
        if client_type = "VIEWER" then s.rooms.map (fun kv => kv.1)
        else (s.rooms.filter (fun kv => kv.2.able_to_add_player)).map (fun kv => kv.1)
      (s, [(sender_socket,
            "ROOMLIST:ACKSTATUS:0:" ++ String.intercalate "," rooms_name_list)])
  | _ => (s, [(sender_socket, "ROOMLIST:ACKSTATUS:1")])

/-- The `for user in authenticated_clients.values(): if is_same_socket(
get_key_by_value(...), target): player_1 = user / player_2 = user` scan of
`join_room`: the last value whose (first) key is `a` and, via the `elif`,
the last value whose key is `b`. -/
def scan_two (ac : List (Sock × String)) (a b : Sock) :
    Option String × Option String :=
  ac.foldl
    (fun acc kv =>
      match get_key_by_value ac kv.2 with
      | some k =>
        if is_same_socket k a then (some kv.2, acc.2)
        else if is_same_socket k b then (acc.1, some kv.2)
        else acc
      | none => acc)
    (none, none)

/-- The `for user in ...: if ...: winner = user` scan of `place`:
last authenticated username whose (first) key is `target`. -/
def find_winner (ac : List (Sock × String)) (target : Sock) : Option String :=
  ac.foldl
    (fun acc kv =>
      match get_key_by_value ac kv.2 with
      | some k => if is_same_socket k target then some kv.2 else acc
      | none => acc)
    none

/-- The winner scan of `forfeit`, which appends each matching username to
the message under construction. -/
def forfeit_scan (ac : List (Sock × String)) (target : Sock) (base : String) :
    String :=
  ac.foldl
    (fun board_status kv =>
      match get_key_by_value ac kv.2 with
      | some k => if is_same_socket k target then board_status ++ kv.2 else board_status
      | none => board_status)
    base

/-- `join_room(splited_message, sender_socket, rooms, clients,
authenticated_clients)`.  `none` is an uncaught NameError/IndexError. -/
def join_room (splited_message : List String) (sender_socket : Sock)
    (s : ServerState) : Option (ServerState × List Msg) :=
  match splited_message with
  | [room_name, user_type] =>
    if user_type ≠ "VIEWER" ∧ user_type ≠ "PLAYER" then
      some (s, [(sender_socket, "JOIN:ACKSTATUS:3")])
    else
      match dictLookup s.rooms room_name with
      | none => some (s, [(sender_socket, "JOIN:ACKSTATUS:1")])
      | some room =>
        let message_from_room := (room.join user_type).2
        let room2 := room.update sender_socket user_type
        let s2 := { s with rooms := dictSet s.rooms room_name room2 }
        if message_from_room = "JOIN:ACKSTATUS:0" ∧ user_type = "PLAYER" ∧
            ¬ room2.able_to_add_player then
          match room2.get_another_player sender_socket with
          | none => none
          | some another_player =>
            match scan_two s.authenticated_clients another_player sender_socket with
            | (some player_1, some player_2) =>
              let begin_message := "BEGIN:" ++ player_1 ++ ":" ++ player_2
              let new_clients :=
                dictSet (dictRemove s2.clients sender_socket) sender_socket
                  (some room_name)
              some
                ({ s2 with clients := new_clients },
                 [(sender_socket, message_from_room),
                  (another_player, begin_message), (sender_socket, begin_message)] ++
                   room2.send_to_all_viewers
                     ("INPROGRESS:" ++ player_1 ++ ":" ++ player_2))
            | _ => none
        else if message_from_room = "JOIN:ACKSTATUS:0" ∧ user_type = "VIEWER" ∧
            ¬ room2.able_to_add_player then
          match room2.get_current_player, room2.get_next_turn_player with
          | some current_player, some next_player =>
            (match scan_two s.authenticated_clients current_player next_player with
             | (some player_1, some player_2) =>
               some (s2, [(sender_socket, message_from_room),
                          (sender_socket, "INPROGRESS:" ++ player_1 ++ ":" ++ player_2)])
             | _ => none)
          | _, _ => none
        else some (s2, [(sender_socket, message_from_room)])
  | _ => some (s, [(sender_socket, "JOIN:ACKSTATUS:3")])

/-- `place(splited_message, sender_socket, roomname, rooms, clients,
authenticated_clients)`.  `none` is an uncaught ValueError (bad int),
IndexError (bad board index / player slot), KeyError or NameError. -/
def place (splited_message : List String) (sender_socket : Sock)
    (roomname : String) (s : ServerState) : Option (ServerState × List Msg) := do
  let rowStr ← splited_message.get? 2
  let colStr ← splited_message.get? 1
  let row ← pyInt rowStr
  let column ← pyInt colStr
  let room ← dictLookup s.rooms roomname
  let room2 ← room.update_matrix row column
  let s2 := { s with rooms := dictSet s.rooms roomname room2 }
  if ¬ room2.has_end then
    let board_status := "BOARDSTATUS:" ++ room2.get_matrix_in_string
    let another_player ← room2.get_another_player sender_socket
    some (s2,
      [(sender_socket, board_status), (another_player, board_status)] ++
        room2.send_to_all_viewers board_status)
  else
    let status_code := room2.status_code
    let base := "GAMEEND:" ++ room2.get_matrix_in_string ++ ":" ++ status_code
    let board_status ←
      if status_code = "0" then do
        let next_turn ← room2.get_next_turn_player
        let winner ← find_winner s.authenticated_clients next_turn
        some (base ++ ":" ++ winner)
      else some base
    let another_player ← room2.get_another_player sender_socket
    let new_clients :=
      dictSet
        (dictSet (dictRemove (dictRemove s2.clients sender_socket) another_player)
          sender_socket none)
        another_player none
    some
      ({ s2 with clients := new_clients, rooms := dictRemove s2.rooms roomname },
       [(sender_socket, board_status), (another_player, board_status)] ++
         room2.send_to_all_viewers board_status)

/-- `forfeit(sender_socket, roomname, rooms, clients, authenticated_clients)`.
`none` is an uncaught IndexError/KeyError. -/
def forfeit (sender_socket : Sock) (roomname : String) (s : ServerState) :
    Option (ServerState × List Msg) := do
  let room ← dictLookup s.rooms roomname
  let next_turn ← room.get_next_turn_player
  let board_status :=
    forfeit_scan s.authenticated_clients next_turn
      ("GAMEEND:" ++ room.get_matrix_in_string ++ ":2:")
  let another_player ← room.get_another_player sender_socket
  let new_clients :=
    dictSet
      (dictSet (dictRemove (dictRemove s.clients sender_socket) another_player)
        sender_socket none)
      another_player none
  some
    ({ s with clients := new_clients, rooms := dictRemove s.rooms roomname },
     [(sender_socket, board_status), (another_player, board_status)] ++
       room.send_to_all_viewers board_status)

/-- The `for room in rooms.keys(): if rooms[room].in_room_as_a_player(...):
roomname = room` scan of `handle_message`. -/
def room_scan (rooms : List (String × Room)) (sender_socket : Sock) :
    Option String :=
  rooms.foldl
    (fun acc kv => if kv.2.in_room_as_a_player sender_socket then some kv.1 else acc)
    none

/-- Outcome of one `handle_message` call.  `blocked` is the busy-wait loop
of lines 262-276 of `server.py` never exiting (it spins until the sender is
the room's current mover, so a request issued out of turn is suspended and
nothing is applied); `error` is an uncaught Python exception. -/
inductive DispatchResult where
  | ok (s : ServerState) (msgs : List Msg)
  | blocked
  | error
deriving Repr, DecidableEq

/-- The body of `handle_message` acting on the already-split message.
`splited_message.headD ""` is the Python `splited_message[0]` (the split
list is never empty) and `splited_message.tail` is `splited_message[1:]`. -/
def handle_message_core (checkpw : String → String → Bool)
    (hashpw : String → String) (sender_socket : Sock)
    (splited_message : List String) (s : ServerState) : DispatchResult :=
  if splited_message.headD "" = "LOGIN" then
    DispatchResult.ok (login checkpw splited_message.tail sender_socket s).1
      (login checkpw splited_message.tail sender_socket s).2
  else if splited_message.headD "" = "REGISTER" then
    DispatchResult.ok (register hashpw splited_message.tail sender_socket s).1
      (register hashpw splited_message.tail sender_socket s).2
  else if ¬ check_authorizations sender_socket s.authenticated_clients then
    DispatchResult.ok s [(sender_socket, "BADAUTH")]
  else if splited_message.headD "" = "ROOMLIST" then
    DispatchResult.ok (room_list splited_message.tail sender_socket s).1
      (room_list splited_message.tail sender_socket s).2
  else if splited_message.headD "" = "CREATE" then
    DispatchResult.ok (create_room splited_message.tail sender_socket s).1
      (create_room splited_message.tail sender_socket s).2
  else if splited_message.headD "" = "JOIN" then
    match join_room splited_message.tail sender_socket s with
    | some (s', msgs) => DispatchResult.ok s' msgs
    | none => DispatchResult.error
  else
    match room_scan s.rooms sender_socket with
    | none => DispatchResult.ok s [(sender_socket, "NOROOM")]
    | some roomname =>
      match dictLookup s.rooms roomname with
      | none => DispatchResult.error
      | some room =>
        if ¬ room.in_room_as_a_player sender_socket then
          DispatchResult.ok s []
        else if ¬ room.has_began then DispatchResult.blocked
        else
          match room.get_current_player with
          | none => DispatchResult.error
          | some current =>
            if ¬ is_same_socket current sender_socket then DispatchResult.blocked
            else if splited_message.headD "" = "PLACE" then
              match place splited_message sender_socket roomname s with
              | some (s', msgs) => DispatchResult.ok s' msgs
              | none => DispatchResult.error
            else if splited_message.headD "" = "FORFEIT" then
              match forfeit sender_socket roomname s with
              | some (s', msgs) => DispatchResult.ok s' msgs
              | none => DispatchResult.error
            else DispatchResult.ok s []

/-- `handle_message(sender_socket, message, ...)`: the protocol router. -/
def handle_message (checkpw : String → String → Bool) (hashpw : String → String)
    (sender_socket : Sock) (message : String) (s : ServerState) : DispatchResult :=
  handle_message_core checkpw hashpw sender_socket (pySplitColon message) s

/-- The `for key, value in clients.items(): if is_same_socket(key,
client_socket): room_need_to_be_closed = value` scan of `handle_client`. -/
def client_room_scan (clients : List (Sock × Option String))
    (client_socket : Sock) : Option String :=
  clients.foldl
    (fun acc kv => if is_same_socket kv.1 client_socket then kv.2 else acc) none

/-- The `finally` block of `handle_client`: teardown when a connection
drops.  The authenticated-clients map is first purged of the closing
socket; `none` is an uncaught KeyError/NameError/IndexError. -/
def disconnect (client_socket : Sock) (s : ServerState) :
    Option (ServerState × List Msg) :=
  match client_room_scan s.clients client_socket with
  | some roomname =>
    match dictLookup s.rooms roomname with
    | none => none
    | some room =>
      if ¬ room.able_to_add_player ∧ room.in_room_as_a_player client_socket then
        match room.get_another_player client_socket with
        | none => none
        | some winner =>
          match find_winner (dictRemove s.authenticated_clients client_socket)
              winner with
          | none => none
          | some winner_name =>
            some
              ({ s with
                   authenticated_clients :=
                     dictRemove s.authenticated_clients client_socket
                   clients :=
                     dictRemove
                       (dictSet
                         (dictSet
                           (dictRemove (dictRemove s.clients client_socket) winner)
                           client_socket none)
                         winner none)
                       client_socket
                   rooms := dictRemove s.rooms roomname },
               (winner, "GAMEEND:" ++ room.get_matrix_in_string ++ ":2:" ++
                   winner_name) ::
                 room.send_to_all_viewers
                   ("GAMEEND:" ++ room.get_matrix_in_string ++ ":2:" ++ winner_name))
      else if room.in_room_as_a_player client_socket then
        some
          ({ s with
               authenticated_clients :=
                 dictRemove s.authenticated_clients client_socket
               clients := dictRemove s.clients client_socket
               rooms := dictRemove s.rooms roomname },
           room.send_to_all_viewers "Room owner has quited.")
      else
        some
          ({ s with
               authenticated_clients :=
                 dictRemove s.authenticated_clients client_socket
               clients := dictRemove s.clients client_socket }, [])
  | none =>
    some
      ({ s with
           authenticated_clients := dictRemove s.authenticated_clients client_socket
           clients := dictRemove s.clients client_socket }, [])

end Server

/-- States reachable by the server loop of `server.py`: the empty initial
state (with the user database loaded), new connections registering in
`clients`, successfully handled messages, and connection teardown.  Each
handler invocation is modelled as one serialized step; the intermediate
shared-dict states the multiprocess source exposes inside a handler (such
as the Ended room stored at `server.py` line 363 until the delete at lines
409-411) are not represented, so invariants proved over this relation hold
of the serialized semantics only. -/
inductive Reachable (checkpw : String → String → Bool) (hashpw : String → String)
    (users0 : List (String × String)) : ServerState → Prop where
  | init :
      Reachable checkpw hashpw users0
        { clients := [], authenticated_clients := [], users := users0, rooms := [] }
  | connect {s : ServerState} (sock : Sock) :
      Reachable checkpw hashpw users0 s →
      Reachable checkpw hashpw users0 { s with clients := dictSet s.clients sock none }
  | msg {s s' : ServerState} (sock : Sock) (m : String) (msgs : List Msg) :
      Reachable checkpw hashpw users0 s →
      Server.handle_message checkpw hashpw sock m s = Server.DispatchResult.ok s' msgs →
      Reachable checkpw hashpw users0 s'
  | quit {s s' : ServerState} (sock : Sock) (msgs : List Msg) :
      Reachable checkpw hashpw users0 s →
      Server.disconnect sock s = some (s', msgs) →
      Reachable checkpw hashpw users0 s'

/-! ### Specification-side definitions

These follow the spec's wording ("8 lines", "uniformly non-Empty",
"no Empty cell", "9-character row-major digit string") and are compared
with the code-derived definitions above. -/

/-- The 8 lines of the spec: 3 rows, 3 columns, 2 diagonals, as coordinate
triples. -/
def linesIdx : List ((Nat × Nat) × (Nat × Nat) × (Nat × Nat)) :=
  [((0, 0), (0, 1), (0, 2)), ((1, 0), (1, 1), (1, 2)), ((2, 0), (2, 1), (2, 2)),
   ((0, 0), (1, 0), (2, 0)), ((0, 1), (1, 1), (2, 1)), ((0, 2), (1, 2), (2, 2)),
   ((0, 0), (1, 1), (2, 2)), ((0, 2), (1, 1), (2, 0))]

/-- A line is uniformly non-Empty: all three cells exist, are equal, and
are not the empty mark 0. -/
def lineUniform (m : List (List Nat)) (L : (Nat × Nat) × (Nat × Nat) × (Nat × Nat)) :
    Bool :=
  match cellAt m L.1.1 L.1.2, cellAt m L.2.1.1 L.2.1.2, cellAt m L.2.2.1 L.2.2.2 with
  | some a, some b, some c => a == b && b == c && a != 0
  | _, _, _ => false

/-- Spec win condition: at least one of the 8 lines is uniformly non-Empty. -/
def spec_win (m : List (List Nat)) : Bool :=
  linesIdx.any (lineUniform m)

/-- Number of uniformly non-Empty lines (the claim asserts Win iff this is
exactly one). -/
def uniform_line_count (m : List (List Nat)) : Nat :=
  linesIdx.countP (lineUniform m)

/-- Spec draw precondition: the board has no Empty cell. -/
def no_empty_cell (m : List (List Nat)) : Bool :=
  (m.flatMap (fun row => row)).all (fun x => x != 0)

/-- Digit for a cell as the spec describes serialization:
'0' = Empty, '1' = slot-0 mark, '2' = slot-1 mark. -/
def cellChar (n : Nat) : Char :=
  if n = 0 then '0' else if n = 1 then '1' else '2'

/-- Spec serialization: the 9-character row-major digit string. -/
def spec_serialize (m : List (List Nat)) : String :=
  String.mk ((m.flatMap (fun row => row)).map cellChar)

/-- A room whose board is `m`, in the mid-game configuration in which
`check_end_status` is invoked by `update_matrix`. -/
def mkBoardRoom (m : List (List Nat)) : Room :=
  { players := [0, 1], viewers := [], max_players := 2, matrix := m,
    current_player := 0, has_end := false, status_code := "3", has_began := true }

/-- The registry invariant the server maintains for every stored room:
it has not ended (ended rooms are deleted in the same handler step that
ends them), holds at most two players, and has the fixed capacity 2. -/
def GoodRoom (r : Room) : Prop :=
  r.has_end = false ∧ r.players.length ≤ 2 ∧ r.max_players = 2

/-- All rooms of an association list satisfy `GoodRoom`. -/
def GoodRoomsL (L : List (String × Room)) : Prop :=
  ∀ n r, dictLookup L n = some r → GoodRoom r

/-- All rooms in the registry satisfy `GoodRoom`. -/
def GoodRooms (s : ServerState) : Prop :=
  GoodRoomsL s.rooms

/-! ### Concrete data used by witnesses and counterexamples -/

/-- Credential check oracle for concrete runs: plaintext comparison. -/
def cpEq : String → String → Bool := fun password stored => password == stored

/-- Hashing oracle for concrete runs: identity. -/
def hpId : String → String := fun password => password

/-- An in-progress two-player room (players 10 and 11, viewer 12,
empty board, player 10 to move). -/
def scn_room : Room :=
  { players := [10, 11], viewers := [12], max_players := 2,
    matrix := [[0, 0, 0], [0, 0, 0], [0, 0, 0]], current_player := 10,
    has_end := false, status_code := "3", has_began := true }

/-- A server state hosting `scn_room` as room "r1", with the three
participants logged in as "A", "B", "C". -/
def scn_state : ServerState :=
  { clients := [(10, some "r1"), (11, some "r1")],
    authenticated_clients := [(10, "A"), (11, "B"), (12, "C")],
    users := [("A", "pw"), ("B", "pw"), ("C", "pw")],
    rooms := [("r1", scn_room)] }

/-- `scn_room` after player 10 places at (0, 0). -/
def scn_room_after : Room :=
  { players := [10, 11], viewers := [12], max_players := 2,
    matrix := [[1, 0, 0], [0, 0, 0], [0, 0, 0]], current_player := 11,
    has_end := false, status_code := "3", has_began := true }

/-- `scn_state` after the `PLACE:0:0` request of player 10. -/
def scn_state_after : ServerState :=
  { clients := [(10, some "r1"), (11, some "r1")],
    authenticated_clients := [(10, "A"), (11, "B"), (12, "C")],
    users := [("A", "pw"), ("B", "pw"), ("C", "pw")],
    rooms := [("r1", scn_room_after)] }

/-- A room in which cell (0, 0) is already occupied by mark 1 and it is
the second player's turn: the input on which the missing occupancy check
of `update_matrix` shows. -/
def c1_room : Room :=
  { players := [10, 11], viewers := [], max_players := 2,
    matrix := [[1, 0, 0], [0, 0, 0], [0, 0, 0]], current_player := 11,
    has_end := false, status_code := "3", has_began := true }

/-- Server state with connection 10 logged in as alice and no room yet. -/
def c4_state1 : ServerState :=
  { clients := [], authenticated_clients := [(10, "alice")],
    users := [("alice", "pw")], rooms := [] }

/-- The Ended room that `place` stores into the shared `rooms` dict
(`server.py` line 363) after player 10 completes row 0, and deletes only
later (lines 409-411) after three blocking sends: board 111220000,
`has_end = true`, status "0", and the turn indicator already flipped to
player 11 by the winning move. -/
def c4_ended_room : Room :=
  { players := [10, 11], viewers := [12], max_players := 2,
    matrix := [[1, 1, 1], [2, 2, 0], [0, 0, 0]], current_player := 11,
    has_end := true, status_code := "0", has_began := true }

/-- The shared server state during the store-to-delete window of `place`:
room "rm" is bound to the Ended room `c4_ended_room`. -/
def c4_mid_state : ServerState :=
  { clients := [(10, some "rm"), (11, some "rm")],
    authenticated_clients := [(10, "A"), (11, "B"), (12, "C")],
    users := [("A", "pw"), ("B", "pw"), ("C", "pw")],
    rooms := [("rm", c4_ended_room)] }

/-- The state after player 11's queued PLACE is dispatched on the stored
Ended room: the room was mutated and then removed again. -/
def c4_mid_state_after : ServerState :=
  { clients := [(11, none), (10, none)],
    authenticated_clients := [(10, "A"), (11, "B"), (12, "C")],
    users := [("A", "pw"), ("B", "pw"), ("C", "pw")],
    rooms := [] }

/-- An in-progress room used for the forfeit scenario: players 20 ("P"),
21 ("Q"), viewer 22 ("V"), player 20 to move. -/
def c5_room : Room :=
  { players := [20, 21], viewers := [22], max_players := 2,
    matrix := [[1, 2, 0], [0, 0, 0], [0, 0, 0]], current_player := 20,
    has_end := false, status_code := "3", has_began := true }

/-- Server state hosting `c5_room` as room "fr". -/
def c5_state : ServerState :=
  { clients := [(20, some "fr"), (21, some "fr")],
    authenticated_clients := [(20, "P"), (21, "Q"), (22, "V")],
    users := [("P", "pw"), ("Q", "pw"), ("V", "pw")],
    rooms := [("fr", c5_room)] }

/-- Server state in which connection 7 is already authenticated as
"alice": a second LOGIN:alice from connection 7 itself exposes the 4-vs-5
status-code priority. -/
def c9_state : ServerState :=
  { clients := [], authenticated_clients := [(7, "alice")],
    users := [("alice", "pw")], rooms := [] }

/-- A full room (players 30 and 31) used for the third-join witness. -/
def c6_room : Room :=
  { players := [30, 31], viewers := [], max_players := 2,
    matrix := [[0, 0, 0], [0, 0, 0], [0, 0, 0]], current_player := 30,
    has_end := false, status_code := "3", has_began := true }

/-- Server state hosting the full room "full"; connection 32 will try to
join it as a third player. -/
def c6_state : ServerState :=
  { clients := [(30, some "full"), (31, some "full")],
    authenticated_clients := [(30, "X"), (31, "Y"), (32, "Z")],
    users := [("X", "pw"), ("Y", "pw"), ("Z", "pw")],
    rooms := [("full", c6_room)] }

/-! ### Association-list dictionary lemmas -/

theorem dictLookup_cons {α β : Type} [DecidableEq α] (kv : α × β)
    (rest : List (α × β)) (k' : α) :
    dictLookup (kv :: rest) k' =
      if kv.1 = k' then some kv.2 else dictLookup rest k' := rfl

theorem dictSet_cons {α β : Type} [DecidableEq α] (kv : α × β)
    (rest : List (α × β)) (k : α) (v : β) :
    dictSet (kv :: rest) k v =
      if kv.1 = k then (k, v) :: rest else kv :: dictSet rest k v := rfl

theorem dictRemove_cons {α β : Type} [DecidableEq α] (kv : α × β)
    (rest : List (α × β)) (k : α) :
    dictRemove (kv :: rest) k =
      if kv.1 = k then dictRemove rest k else kv :: dictRemove rest k := rfl

theorem dictLookup_dictSet {α β : Type} [DecidableEq α] (d : List (α × β))
    (k : α) (v : β) (k' : α) :
    dictLookup (dictSet d k v) k' = if k = k' then some v else dictLookup d k' := by
  induction d with
  | nil => simp [dictSet, dictLookup_cons, dictLookup]
  | cons kv rest ih =>
    rw [dictSet_cons]
    by_cases h1 : kv.1 = k
    · rw [if_pos h1, dictLookup_cons, dictLookup_cons]
      by_cases h2 : k = k'
      · simp [h2]
      · have h3 : ¬ kv.1 = k' := fun hh => h2 (h1.symm.trans hh)
        simp [h2, h3]
    · rw [if_neg h1, dictLookup_cons, dictLookup_cons, ih]
      by_cases h2 : kv.1 = k'
      · have h3 : ¬ k = k' := fun hh => h1 (h2.trans hh.symm)
        simp [h2, h3]
      · simp [h2]

theorem dictLookup_dictRemove {α β : Type} [DecidableEq α] (d : List (α × β))
    (k : α) (k' : α) :
    dictLookup (dictRemove d k) k' = if k = k' then none else dictLookup d k' := by
  induction d with
  | nil => simp [dictRemove, dictLookup]
  | cons kv rest ih =>
    rw [dictRemove_cons]
    by_cases h1 : kv.1 = k
    · rw [if_pos h1, ih, dictLookup_cons]
      by_cases h2 : k = k'
      · simp [h2]
      · have h3 : ¬ kv.1 = k' := fun hh => h2 (h1.symm.trans hh)
        simp [h2, h3]
    · rw [if_neg h1, dictLookup_cons, dictLookup_cons, ih]
      by_cases h2 : kv.1 = k'
      · have h3 : ¬ k = k' := fun hh => h1 (h2.trans hh.symm)
        simp [h2, h3]
      · simp [h2]

theorem dictSet_of_not_mem {α β : Type} [DecidableEq α] {d : List (α × β)}
    {k : α} (v : β) (h : dictLookup d k = none) :
    dictSet d k v = d ++ [(k, v)] := by
  induction d with
  | nil => rfl
  | cons kv rest ih =>
    by_cases h1 : kv.1 = k
    · simp [dictLookup, h1] at h
    · simp [dictLookup, h1] at h
      simp [dictSet, h1, ih h]

theorem dictSet_length_of_not_mem {α β : Type} [DecidableEq α] {d : List (α × β)}
    {k : α} (v : β) (h : dictLookup d k = none) :
    (dictSet d k v).length = d.length + 1 := by
  rw [dictSet_of_not_mem v h]
  simp

/-! ### Room-level helper lemmas -/

theorem check_end_status_fields (r : Room) :
    (r.check_end_status).players = r.players ∧
    (r.check_end_status).viewers = r.viewers ∧
    (r.check_end_status).max_players = r.max_players ∧
    (r.check_end_status).matrix = r.matrix ∧
    (r.check_end_status).current_player = r.current_player ∧
    (r.check_end_status).has_began = r.has_began := by
  unfold Room.check_end_status
  split <;> [skip; split] <;> simp

theorem update_matrix_spec {r r' : Room} {row column : Int}
    (h : r.update_matrix row column = some r') :
    r'.players = r.players ∧ r'.max_players = r.max_players ∧
    (∃ p0, r.players.get? 0 = some p0 ∧
      ((r.current_player = p0 ∧
          ∃ m p1, pySetCell r.matrix row column 1 = some m ∧
            r.players.get? 1 = some p1 ∧
            r' = Room.check_end_status { r with matrix := m, current_player := p1 }) ∨
        (r.current_player ≠ p0 ∧
          ∃ m, pySetCell r.matrix row column 2 = some m ∧
            r' = Room.check_end_status { r with matrix := m, current_player := p0 }))) := by
  unfold Room.update_matrix at h
  cases hp0 : r.players.get? 0 with
  | none => rw [hp0] at h; simp at h
  | some p0 =>
    rw [hp0] at h
    simp only [Option.bind_eq_bind, Option.some_bind] at h
    by_cases hc : r.current_player = p0
    · rw [if_pos hc] at h
      cases hm : pySetCell r.matrix row column 1 with
      | none => rw [hm] at h; simp at h
      | some m =>
        rw [hm] at h
        simp only [Option.some_bind] at h
        cases hp1 : r.players.get? 1 with
        | none => rw [hp1] at h; simp at h
        | some p1 =>
          rw [hp1] at h
          simp only [Option.some_bind, Option.some_inj] at h
          subst h
          refine ⟨?_, ?_, p0, rfl, Or.inl ⟨hc, m, p1, rfl, rfl, rfl⟩⟩
          · exact (check_end_status_fields _).1
          · exact (check_end_status_fields _).2.2.1
    · rw [if_neg hc] at h
      cases hm : pySetCell r.matrix row column 2 with
      | none => rw [hm] at h; simp at h
      | some m =>
        rw [hm] at h
        simp only [Option.some_bind, Option.some_inj] at h
        subst h
        refine ⟨?_, ?_, p0, rfl, Or.inr ⟨hc, m, rfl, rfl⟩⟩
        · exact (check_end_status_fields _).1
        · exact (check_end_status_fields _).2.2.1

theorem update_good {r : Room} (hg : GoodRoom r) (sock : Sock) (mode : String) :
    GoodRoom (r.update sock mode) ∧ (r.update sock mode).has_end = r.has_end := by
  obtain ⟨he, hl, hm⟩ := hg
  unfold Room.update
  by_cases h1 : mode = "PLAYER"
  · rw [if_pos h1]
    by_cases h2 : r.players.length < r.max_players
    · rw [if_pos h2]
      refine ⟨⟨he, ?_, hm⟩, rfl⟩
      simp only [List.length_append, List.length_cons, List.length_nil]
      omega
    · rw [if_neg h2]
      exact ⟨⟨he, hl, hm⟩, rfl⟩
  · rw [if_neg h1]
    by_cases h2 : mode = "VIEWER"
    · rw [if_pos h2]
      exact ⟨⟨he, hl, hm⟩, rfl⟩
    · rw [if_neg h2]
      exact ⟨⟨he, hl, hm⟩, rfl⟩

/-! ### Registry invariant: every stored room is un-ended with at most two
players -/

theorem goodRoom_mk_new (sock : Sock) : GoodRoom (Room.mk_new sock) :=
  ⟨rfl, by simp [Room.mk_new], rfl⟩

theorem goodRoomsL_set {L : List (String × Room)} (h : GoodRoomsL L) {r : Room}
    (hr : GoodRoom r) (n : String) : GoodRoomsL (dictSet L n r) := by
  intro n' r' h'
  rw [dictLookup_dictSet] at h'
  by_cases hn : n = n'
  · rw [if_pos hn] at h'
    obtain rfl := Option.some_inj.mp h'
    exact hr
  · rw [if_neg hn] at h'
    exact h n' r' h'

theorem goodRoomsL_remove {L : List (String × Room)} (h : GoodRoomsL L)
    (n : String) : GoodRoomsL (dictRemove L n) := by
  intro n' r' h'
  rw [dictLookup_dictRemove] at h'
  by_cases hn : n = n'
  · rw [if_pos hn] at h'
    exact absurd h' (by simp)
  · rw [if_neg hn] at h'
    exact h n' r' h'

theorem login_rooms (checkpw : String → String → Bool) (args : List String)
    (sock : Sock) (s : ServerState) :
    ((Server.login checkpw args sock s).1).rooms = s.rooms := by
  unfold Server.login
  repeat' split
  all_goals rfl

theorem register_rooms (hashpw : String → String) (args : List String)
    (sock : Sock) (s : ServerState) :
    ((Server.register hashpw args sock s).1).rooms = s.rooms := by
  unfold Server.register
  repeat' split
  all_goals rfl

theorem room_list_state (args : List String) (sock : Sock) (s : ServerState) :
    (Server.room_list args sock s).1 = s := by
  unfold Server.room_list
  repeat' split
  all_goals rfl

theorem create_room_rooms (args : List String) (sock : Sock) (s : ServerState) :
    ((Server.create_room args sock s).1).rooms = s.rooms ∨
      ∃ name, dictLookup s.rooms name = none ∧
        ((Server.create_room args sock s).1).rooms =
          dictSet s.rooms name (Room.mk_new sock) := by
  unfold Server.create_room
  rcases args with _ | ⟨new_room_name, _ | ⟨x, rest⟩⟩
  · exact Or.inl rfl
  · simp only
    by_cases h1 : Server.check_legal_room_name new_room_name
    · rw [if_pos h1]
      by_cases h2 : (dictLookup s.rooms new_room_name).isSome = true
      · rw [if_pos h2]
        exact Or.inl rfl
      · rw [if_neg h2]
        by_cases h3 : s.rooms.length = 256
        · rw [if_pos h3]
          exact Or.inl rfl
        · rw [if_neg h3]
          refine Or.inr ⟨new_room_name, ?_, rfl⟩
          exact Option.not_isSome_iff_eq_none.mp h2
    · rw [if_neg h1]
      exact Or.inl rfl
  · exact Or.inl rfl

theorem join_room_rooms {args : List String} {sock : Sock} {s s' : ServerState}
    {msgs : List Msg} (hj : Server.join_room args sock s = some (s', msgs)) :
    s'.rooms = s.rooms ∨
      ∃ room_name room user_type, dictLookup s.rooms room_name = some room ∧
        s'.rooms = dictSet s.rooms room_name (room.update sock user_type) := by
  unfold Server.join_room at hj
  rcases args with _ | ⟨room_name, _ | ⟨user_type, _ | ⟨x, rest⟩⟩⟩
  · obtain ⟨rfl, rfl⟩ := Prod.mk.injEq .. ▸ Option.some_inj.mp hj
    exact Or.inl rfl
  · obtain ⟨rfl, rfl⟩ := Prod.mk.injEq .. ▸ Option.some_inj.mp hj
    exact Or.inl rfl
  · simp only at hj
    split at hj
    · obtain ⟨rfl, rfl⟩ := Prod.mk.injEq .. ▸ Option.some_inj.mp hj
      exact Or.inl rfl
    · split at hj
      · obtain ⟨rfl, rfl⟩ := Prod.mk.injEq .. ▸ Option.some_inj.mp hj
        exact Or.inl rfl
      case _ room hlook =>
        split at hj
        · split at hj
          · exact absurd hj (by simp)
          · split at hj
            · obtain ⟨rfl, rfl⟩ := Prod.mk.injEq .. ▸ Option.some_inj.mp hj
              exact Or.inr ⟨room_name, room, user_type, hlook, rfl⟩
            · exact absurd hj (by simp)
        · split at hj
          · split at hj
            · split at hj
              · obtain ⟨rfl, rfl⟩ := Prod.mk.injEq .. ▸ Option.some_inj.mp hj
                exact Or.inr ⟨room_name, room, user_type, hlook, rfl⟩
              · exact absurd hj (by simp)
            · exact absurd hj (by simp)
          · obtain ⟨rfl, rfl⟩ := Prod.mk.injEq .. ▸ Option.some_inj.mp hj
            exact Or.inr ⟨room_name, room, user_type, hlook, rfl⟩
  · obtain ⟨rfl, rfl⟩ := Prod.mk.injEq .. ▸ Option.some_inj.mp hj
    exact Or.inl rfl

theorem goodRoomsL_set_remove {L : List (String × Room)} (h : GoodRoomsL L)
    (n : String) (r : Room) : GoodRoomsL (dictRemove (dictSet L n r) n) := by
  intro n' r' h'
  rw [dictLookup_dictRemove] at h'
  by_cases hn : n = n'
  · rw [if_pos hn] at h'
    simp at h'
  · rw [if_neg hn] at h'
    rw [dictLookup_dictSet, if_neg hn] at h'
    exact h n' r' h'

theorem place_rooms {sm : List String} {sock : Sock} {rn : String}
    {s s' : ServerState} {msgs : List Msg}
    (hp : Server.place sm sock rn s = some (s', msgs)) :
    ∃ room room2 row col, dictLookup s.rooms rn = some room ∧
      Room.update_matrix room row col = some room2 ∧
      ((room2.has_end = false ∧ s'.rooms = dictSet s.rooms rn room2) ∨
        s'.rooms = dictRemove (dictSet s.rooms rn room2) rn) := by
  unfold Server.place at hp
  simp only [Option.bind_eq_bind, Option.bind_eq_some] at hp
  obtain ⟨rowStr, h1, colStr, h2, row, h3, col, h4, room, h5, room2, h6, hp⟩ := hp
  refine ⟨room, room2, row, col, h5, h6, ?_⟩
  split at hp
  case isTrue hend =>
    simp only [Option.bind_eq_some] at hp
    obtain ⟨another, h7, hp⟩ := hp
    obtain ⟨rfl, rfl⟩ := Prod.mk.injEq .. ▸ Option.some_inj.mp hp
    exact Or.inl ⟨by simpa using hend, rfl⟩
  case isFalse hend =>
    split at hp
    · simp only [Option.some_bind, Option.bind_eq_some] at hp
      obtain ⟨nt, h7, w, h8, another, h9, hp⟩ := hp
      obtain ⟨rfl, rfl⟩ := Prod.mk.injEq .. ▸ Option.some_inj.mp hp
      exact Or.inr rfl
    · simp only [Option.some_bind, Option.bind_eq_some] at hp
      obtain ⟨another, h9, hp⟩ := hp
      obtain ⟨rfl, rfl⟩ := Prod.mk.injEq .. ▸ Option.some_inj.mp hp
      exact Or.inr rfl

theorem forfeit_rooms {sock : Sock} {rn : String} {s s' : ServerState}
    {msgs : List Msg} (hf : Server.forfeit sock rn s = some (s', msgs)) :
    s'.rooms = dictRemove s.rooms rn := by
  unfold Server.forfeit at hf
  simp only [Option.bind_eq_bind, Option.bind_eq_some] at hf
  obtain ⟨room, h1, nt, h2, another, h3, hf⟩ := hf
  obtain ⟨rfl, rfl⟩ := Prod.mk.injEq .. ▸ Option.some_inj.mp hf
  rfl

theorem disconnect_rooms {sock : Sock} {s s' : ServerState} {msgs : List Msg}
    (hd : Server.disconnect sock s = some (s', msgs)) :
    s'.rooms = s.rooms ∨ ∃ rn, s'.rooms = dictRemove s.rooms rn := by
  unfold Server.disconnect at hd
  split at hd
  case _ roomname heq =>
    split at hd
    · exact absurd hd (by simp)
    case _ room hlook =>
      split at hd
      · split at hd
        · exact absurd hd (by simp)
        case _ winner hw =>
          split at hd
          · exact absurd hd (by simp)
          case _ winner_name hwn =>
            obtain ⟨rfl, rfl⟩ := Prod.mk.injEq .. ▸ Option.some_inj.mp hd
            exact Or.inr ⟨roomname, rfl⟩
      · split at hd
        · obtain ⟨rfl, rfl⟩ := Prod.mk.injEq .. ▸ Option.some_inj.mp hd
          exact Or.inr ⟨roomname, rfl⟩
        · obtain ⟨rfl, rfl⟩ := Prod.mk.injEq .. ▸ Option.some_inj.mp hd
          exact Or.inl rfl
  · obtain ⟨rfl, rfl⟩ := Prod.mk.injEq .. ▸ Option.some_inj.mp hd
    exact Or.inl rfl

theorem good_of_rooms_eq {s s' : ServerState} (h : s'.rooms = s.rooms)
    (hg : GoodRooms s) : GoodRooms s' := by
  unfold GoodRooms
  rw [h]
  exact hg

theorem handle_message_core_good {cp : String → String → Bool}
    {hpw : String → String} {sock : Sock} {sm : List String}
    {s s' : ServerState} {msgs : List Msg} (hg : GoodRooms s)
    (hm : Server.handle_message_core cp hpw sock sm s =
      Server.DispatchResult.ok s' msgs) :
    GoodRooms s' := by
  delta Server.handle_message_core at hm
  by_cases h1 : sm.headD "" = "LOGIN"
  · rw [if_pos h1] at hm
    obtain ⟨rfl, rfl⟩ := Server.DispatchResult.ok.injEq .. ▸ hm
    exact good_of_rooms_eq (login_rooms cp sm.tail sock s) hg
  rw [if_neg h1] at hm
  by_cases h2 : sm.headD "" = "REGISTER"
  · rw [if_pos h2] at hm
    obtain ⟨rfl, rfl⟩ := Server.DispatchResult.ok.injEq .. ▸ hm
    exact good_of_rooms_eq (register_rooms hpw sm.tail sock s) hg
  rw [if_neg h2] at hm
  by_cases h3 : ¬ Server.check_authorizations sock s.authenticated_clients
  · rw [if_pos h3] at hm
    obtain ⟨rfl, rfl⟩ := Server.DispatchResult.ok.injEq .. ▸ hm
    exact hg
  rw [if_neg h3] at hm
  by_cases h4 : sm.headD "" = "ROOMLIST"
  · rw [if_pos h4] at hm
    obtain ⟨rfl, rfl⟩ := Server.DispatchResult.ok.injEq .. ▸ hm
    exact good_of_rooms_eq
      (congrArg ServerState.rooms (room_list_state sm.tail sock s)) hg
  rw [if_neg h4] at hm
  by_cases h5 : sm.headD "" = "CREATE"
  · rw [if_pos h5] at hm
    obtain ⟨rfl, rfl⟩ := Server.DispatchResult.ok.injEq .. ▸ hm
    rcases create_room_rooms sm.tail sock s with hcr | ⟨name, hnone, hcr⟩
    · exact good_of_rooms_eq hcr hg
    · unfold GoodRooms
      rw [hcr]
      exact goodRoomsL_set hg (goodRoom_mk_new sock) name
  rw [if_neg h5] at hm
  by_cases h6 : sm.headD "" = "JOIN"
  · rw [if_pos h6] at hm
    split at hm
    case _ s1 m1 hj =>
      obtain ⟨rfl, rfl⟩ := Server.DispatchResult.ok.injEq .. ▸ hm
      rcases join_room_rooms hj with hjr | ⟨name, room, ut, hlook, hjr⟩
      · exact good_of_rooms_eq hjr hg
      · unfold GoodRooms
        rw [hjr]
        exact goodRoomsL_set hg (update_good (hg name room hlook) sock ut).1 name
    · exact absurd hm (by simp)
  rw [if_neg h6] at hm
  split at hm
  · -- NOROOM
    obtain ⟨rfl, rfl⟩ := Server.DispatchResult.ok.injEq .. ▸ hm
    exact hg
  case _ roomname hscan =>
    split at hm
    · exact absurd hm (by simp)
    case _ room hlook =>
      split at hm
      · -- treated as viewer: no action
        obtain ⟨rfl, rfl⟩ := Server.DispatchResult.ok.injEq .. ▸ hm
        exact hg
      split at hm
      · exact absurd hm (by simp)
      split at hm
      · exact absurd hm (by simp)
      case _ current hcp =>
        split at hm
        · exact absurd hm (by simp)
        split at hm
        · -- PLACE
          split at hm
          case _ s1 m1 hp =>
            obtain ⟨rfl, rfl⟩ := Server.DispatchResult.ok.injEq .. ▸ hm
            obtain ⟨rm, rm2, row, col, h5p, h6p, hcase⟩ := place_rooms hp
            obtain ⟨hu1, hu2, _⟩ := update_matrix_spec h6p
            obtain ⟨hge, hgl, hgm⟩ := hg roomname rm h5p
            rcases hcase with ⟨hend, hpr⟩ | hpr
            · unfold GoodRooms
              rw [hpr]
              refine goodRoomsL_set hg ⟨hend, ?_, ?_⟩ roomname
              · rw [hu1]; exact hgl
              · rw [hu2]; exact hgm
            · unfold GoodRooms
              rw [hpr]
              exact goodRoomsL_set_remove hg roomname rm2
          · exact absurd hm (by simp)
        split at hm
        · -- FORFEIT
          split at hm
          case _ s1 m1 hf =>
            obtain ⟨rfl, rfl⟩ := Server.DispatchResult.ok.injEq .. ▸ hm
            unfold GoodRooms
            rw [forfeit_rooms hf]
            exact goodRoomsL_remove hg roomname
          · exact absurd hm (by simp)
        · -- unknown in-room command
          obtain ⟨rfl, rfl⟩ := Server.DispatchResult.ok.injEq .. ▸ hm
          exact hg

theorem handle_message_good {cp : String → String → Bool} {hpw : String → String}
    {sock : Sock} {m : String} {s s' : ServerState} {msgs : List Msg}
    (hg : GoodRooms s)
    (hm : Server.handle_message cp hpw sock m s = Server.DispatchResult.ok s' msgs) :
    GoodRooms s' :=
  handle_message_core_good hg hm

theorem disconnect_good {sock : Sock} {s s' : ServerState} {msgs : List Msg}
    (hg : GoodRooms s) (hd : Server.disconnect sock s = some (s', msgs)) :
    GoodRooms s' := by
  rcases disconnect_rooms hd with h | ⟨rn, h⟩
  · exact good_of_rooms_eq h hg
  · unfold GoodRooms
    rw [h]
    exact goodRoomsL_remove hg rn

theorem reachable_good {cp : String → String → Bool} {hpw : String → String}
    {u0 : List (String × String)} {s : ServerState}
    (h : Reachable cp hpw u0 s) : GoodRooms s := by
  induction h with
  | init => intro n r h'; simp [dictLookup] at h'
  | connect sock _ ih => exact ih
  | msg sock m msgs _ hm ih => exact handle_message_good ih hm
  | quit sock msgs _ hd ih => exact disconnect_good ih hd

/-! ### Claim theorems -/

/-- C1: the claim says a place request on an occupied cell is rejected with
Occupied and one out of [0,2] is rejected with OutOfRange, leaving the board
unchanged.  The code has neither check: `update_matrix` on `c1_room`, whose
cell (0,0) already holds mark 1, overwrites it with mark 2 and flips the
turn (and an index of 3 raises an uncaught IndexError instead of producing
an OutOfRange reply). -/
theorem c1_place_occupied_overwrites :
    cellAt c1_room.matrix 0 0 = some 1 ∧
    (c1_room.update_matrix 0 0).map (fun r => cellAt r.matrix 0 0) =
      some (some 2) ∧
    Room.update_matrix c1_room 3 0 = none := by
  refine ⟨rfl, ?_, ?_⟩ <;> decide

/-- C4: the claim says an Ended room's board and status are never mutated
by a further join, place or forfeit.  In the source, `place` stores the
Ended room into the shared dict (`server.py` line 363) and deletes it only
after three blocking sends (lines 409-411), and the turn-wait loop (lines
262-276) checks `has_began` and `current_player` but never `has_end`; the
opponent's placement queued there is released by the very turn flip of the
winning move and reaches `update_matrix`, which has no `has_end` guard.
Evaluated on that stored Ended room: the board cell (1,2), Empty at the end
of the game, is overwritten with mark 2, and the full dispatch on the
mid-window state `c4_mid_state` accepts player 11's `PLACE:2:1`, mutates
the Ended board 111220000 to 111222000 and re-broadcasts GAMEEND naming
player 11 ("B") the winner of a game player 10 had already won. -/
theorem c4_ended_room_mutated_by_queued_place :
    (c4_ended_room.has_end = true ∧
      cellAt c4_ended_room.matrix 1 2 = some 0) ∧
    (c4_ended_room.update_matrix 1 2).map (fun r => cellAt r.matrix 1 2) =
      some (some 2) ∧
    Server.handle_message_core cpEq hpId 11 ["PLACE", "2", "1"] c4_mid_state =
      Server.DispatchResult.ok c4_mid_state_after
        [(11, "GAMEEND:111222000:0:B"), (10, "GAMEEND:111222000:0:B"),
         (12, "GAMEEND:111222000:0:B")] := by
  refine ⟨⟨rfl, rfl⟩, ?_, ?_⟩
  · decide
  · decide

/-- C6: a room never holds more than 2 players in any reachable state, and
a PLAYER join on a room that already has 2 players replies
`JOIN:ACKSTATUS:2` without adding the joiner (the stored room keeps the
same value `r`). -/
theorem c6_at_most_two_players :
    (∀ (checkpw : String → String → Bool) (hashpw : String → String)
       (users0 : List (String × String)) (s : ServerState),
       Reachable checkpw hashpw users0 s →
       ∀ n r, dictLookup s.rooms n = some r → r.players.length ≤ 2) ∧
    (∀ (s : ServerState) (name : String) (r : Room) (sender : Sock),
       dictLookup s.rooms name = some r → r.players.length = 2 →
       r.max_players = 2 →
       Server.join_room [name, "PLAYER"] sender s =
         some ({ s with rooms := dictSet s.rooms name r },
               [(sender, "JOIN:ACKSTATUS:2")]) ∧
       dictLookup (dictSet s.rooms name r) name = some r) := by
  constructor
  · intro checkpw hashpw users0 s hr n r h
    exact (reachable_good hr n r h).2.1
  · intro s name r sender hlook hlen hmax
    have hfull : ¬ r.players.length < r.max_players := by rw [hlen, hmax]; omega
    have hupd : r.update sender "PLAYER" = r := by
      unfold Room.update
      rw [if_pos rfl, if_neg hfull]
    have hjoin : (r.join "PLAYER").2 = "JOIN:ACKSTATUS:2" := by
      unfold Room.join
      rw [if_pos rfl, if_neg hfull]
    constructor
    · simp only [Server.join_room]
      rw [if_neg (by simp)]
      simp only [hlook, hjoin, hupd]
      rw [if_neg (by simp), if_neg (by simp)]
    · rw [dictLookup_dictSet, if_pos rfl]

/-- C2: turn alternation.  After every accepted placement `update_matrix`
flips the mover to the other player slot; and a PLACE issued by a player
who is not the room's current mover makes the router's wait loop spin
(`blocked`), so nothing is applied to the board. -/
theorem c2_turn_alternates :
    (∀ (r r' : Room) (row col : Int) (p0 : Sock),
       r.players.get? 0 = some p0 → r.update_matrix row col = some r' →
       (r.current_player = p0 → r.players.get? 1 = some r'.current_player) ∧
       (r.current_player ≠ p0 → r'.current_player = p0)) ∧
    (∀ (checkpw : String → String → Bool) (hashpw : String → String)
       (sender : Sock) (sm : List String) (s : ServerState)
       (roomname : String) (room : Room) (current : Sock),
       sm.headD "" = "PLACE" →
       Server.check_authorizations sender s.authenticated_clients = true →
       Server.room_scan s.rooms sender = some roomname →
       dictLookup s.rooms roomname = some room →
       room.in_room_as_a_player sender = true →
       room.has_began = true →
       room.get_current_player = some current →
       current ≠ sender →
       Server.handle_message_core checkpw hashpw sender sm s =
         Server.DispatchResult.blocked) := by
  constructor
  · intro r r' row col p0 hp0 hu
    obtain ⟨_, _, q0, hq0, hcase⟩ := update_matrix_spec hu
    rw [hp0] at hq0
    obtain rfl : p0 = q0 := Option.some_inj.mp hq0
    rcases hcase with ⟨hc, m, p1, hm, hp1, rfl⟩ | ⟨hc, m, hm, rfl⟩
    · constructor
      · intro _
        rw [hp1, (check_end_status_fields _).2.2.2.2.1]
      · intro hne
        exact absurd hc hne
    · constructor
      · intro hcc
        exact absurd hcc hc
      · intro _
        rw [(check_end_status_fields _).2.2.2.2.1]
  · intro checkpw hashpw sender sm s roomname room current hcmd hauth hscan hlook
      hin hbegan hcp hne
    delta Server.handle_message_core
    rw [if_neg (by rw [hcmd]; decide), if_neg (by rw [hcmd]; decide),
      if_neg (not_not_intro hauth), if_neg (by rw [hcmd]; decide),
      if_neg (by rw [hcmd]; decide), if_neg (by rw [hcmd]; decide)]
    simp only [hscan, hlook]
    rw [if_neg (not_not_intro hin), if_neg (not_not_intro hbegan)]
    simp only [hcp]
    rw [if_pos (by simp [is_same_socket, hne])]

/-- Witness for C6: connection 32 joining the full room "full" as PLAYER
receives `JOIN:ACKSTATUS:2` and the room keeps its two players. -/
theorem c6_witness :
    Server.join_room ["full", "PLAYER"] 32 c6_state =
      some ({ c6_state with rooms := dictSet c6_state.rooms "full" c6_room },
            [(32, "JOIN:ACKSTATUS:2")]) ∧
    dictLookup (dictSet c6_state.rooms "full" c6_room) "full" = some c6_room :=
  c6_at_most_two_players.2 c6_state "full" c6_room 32 (by decide) (by decide)
    (by decide)

/-- Witness for C2: in `scn_room` (player 10 to move) an accepted placement
flips the turn to player 11, while player 11's own PLACE request is
blocked. -/
theorem c2_witness :
    scn_room.players.get? 1 = some scn_room_after.current_player ∧
    Server.handle_message_core cpEq hpId 11 ["PLACE", "1", "1"] scn_state =
      Server.DispatchResult.blocked := by
  constructor
  · exact (c2_turn_alternates.1 scn_room scn_room_after 0 0 10 (by decide)
      (by decide)).1 (by decide)
  · exact c2_turn_alternates.2 cpEq hpId 11 ["PLACE", "1", "1"] scn_state "r1"
      scn_room 10 (by decide) (by decide) (by decide) (by decide) (by decide)
      (by decide) (by decide) (by decide)

theorem dictSet_append_of_no_key (ac : List (Sock × String)) (sender : Sock)
    (u : String) (h : Server.check_authorizations sender ac = false) :
    dictSet ac sender u = ac ++ [(sender, u)] := by
  induction ac with
  | nil => rfl
  | cons kv rest ih =>
    simp only [Server.check_authorizations, List.any_cons, Bool.or_eq_false_iff,
      is_same_socket, beq_eq_false_iff_ne, ne_eq] at h
    rw [dictSet_cons, if_neg h.1, ih]
    · rfl
    · simp only [Server.check_authorizations]
      exact h.2

/-- C8: the CREATE reply is ACKSTATUS:4 on a wrong argument count, 1 on an
illegal name, 2 when the name exists, 3 at the 256-room cap, and 0
otherwise, in which case and only in which case the room is appended; the
room count never exceeds 256. -/
theorem c8_create_room_statuses :
    (∀ (args : List String) (sender : Sock) (s : ServerState),
       args.length ≠ 1 →
       Server.create_room args sender s = (s, [(sender, "CREATE:ACKSTATUS:4")])) ∧
    (∀ (name : String) (sender : Sock) (s : ServerState),
       Server.check_legal_room_name name = false →
       Server.create_room [name] sender s = (s, [(sender, "CREATE:ACKSTATUS:1")])) ∧
    (∀ (name : String) (sender : Sock) (s : ServerState) (r : Room),
       Server.check_legal_room_name name = true →
       dictLookup s.rooms name = some r →
       Server.create_room [name] sender s = (s, [(sender, "CREATE:ACKSTATUS:2")])) ∧
    (∀ (name : String) (sender : Sock) (s : ServerState),
       Server.check_legal_room_name name = true →
       dictLookup s.rooms name = none → s.rooms.length = 256 →
       Server.create_room [name] sender s = (s, [(sender, "CREATE:ACKSTATUS:3")])) ∧
    (∀ (name : String) (sender : Sock) (s : ServerState),
       Server.check_legal_room_name name = true →
       dictLookup s.rooms name = none → s.rooms.length ≠ 256 →
       (Server.create_room [name] sender s).2 = [(sender, "CREATE:ACKSTATUS:0")] ∧
       ((Server.create_room [name] sender s).1).rooms =
         s.rooms ++ [(name, Room.mk_new sender)]) ∧
    (∀ (args : List String) (sender : Sock) (s : ServerState),
       s.rooms.length ≤ 256 →
       ((Server.create_room args sender s).1).rooms.length ≤ 256) := by
  refine ⟨?_, ?_, ?_, ?_, ?_, ?_⟩
  · intro args sender s hlen
    rcases args with _ | ⟨a, _ | ⟨b, t⟩⟩
    · rfl
    · exact absurd rfl hlen
    · rfl
  · intro name sender s hname
    simp only [Server.create_room]
    rw [if_neg (by simp [hname])]
  · intro name sender s r hname hlook
    simp only [Server.create_room]
    rw [if_pos hname, if_pos (by simp [hlook])]
  · intro name sender s hname hlook hcap
    simp only [Server.create_room]
    rw [if_pos hname, if_neg (by simp [hlook]), if_pos hcap]
  · intro name sender s hname hlook hcap
    simp only [Server.create_room]
    rw [if_pos hname, if_neg (by simp [hlook]), if_neg hcap]
    exact ⟨rfl, dictSet_of_not_mem _ hlook⟩
  · intro args sender s hle
    rcases args with _ | ⟨name, _ | ⟨b, t⟩⟩
    · exact hle
    · simp only [Server.create_room]
      by_cases h1 : Server.check_legal_room_name name
      · rw [if_pos h1]
        by_cases h2 : (dictLookup s.rooms name).isSome = true
        · rw [if_pos h2]
          exact hle
        · rw [if_neg h2]
          by_cases h3 : s.rooms.length = 256
          · rw [if_pos h3]
            exact hle
          · rw [if_neg h3]
            show (dictSet s.rooms name (Room.mk_new sender)).length ≤ 256
            rw [dictSet_length_of_not_mem _ (Option.not_isSome_iff_eq_none.mp h2)]
            omega
      · rw [if_neg h1]
        exact hle
    · exact hle

/-- Witness for C8 at concrete inputs: bad argument count, the illegal
name "bad!name", and a successful creation that appends the room. -/
theorem c8_witness :
    Server.create_room [] 5 c4_state1 = (c4_state1, [(5, "CREATE:ACKSTATUS:4")]) ∧
    Server.create_room ["bad!name"] 5 c4_state1 =
      (c4_state1, [(5, "CREATE:ACKSTATUS:1")]) ∧
    (Server.create_room ["rm"] 10 c4_state1).2 = [(10, "CREATE:ACKSTATUS:0")] ∧
    ((Server.create_room ["rm"] 10 c4_state1).1).rooms =
      c4_state1.rooms ++ [("rm", Room.mk_new 10)] := by
  refine ⟨?_, ?_, ?_, ?_⟩
  · exact c8_create_room_statuses.1 [] 5 c4_state1 (by decide)
  · exact c8_create_room_statuses.2.1 "bad!name" 5 c4_state1 (by decide)
  · exact (c8_create_room_statuses.2.2.2.2.1 "rm" 10 c4_state1 (by decide)
      (by decide) (by decide)).1
  · exact (c8_create_room_statuses.2.2.2.2.1 "rm" 10 c4_state1 (by decide)
      (by decide) (by decide)).2

/-- C9 counterexample: connection 7 is already authenticated as "alice"
and logs in again with the same valid credentials.  The username is bound
to the requesting connection itself, not to another live connection, and
the claim therefore requires ACKSTATUS:5 (already authenticated) — the
code replies ACKSTATUS:4. -/
theorem c9_counterexample :
    Server.login cpEq ["alice", "pw"] 7 c9_state =
      (c9_state, [(7, "LOGIN:ACKSTATUS:4")]) ∧
    ("LOGIN:ACKSTATUS:4" : String) ≠ "LOGIN:ACKSTATUS:5" := by
  constructor
  · decide
  · decide

/-- C9 (amended): LOGIN replies 3 on a malformed request, 1 on an unknown
username, 2 on a failing password check, 4 when the username is bound to
any live connection (including the requester itself), 5 when the requester
is already authenticated under another name, and 0 on success, in which
case and only in which case the binding is appended; username bindings
stay unique. -/
theorem c9_login_statuses :
    (∀ (cp : String → String → Bool) (args : List String) (sender : Sock)
       (s : ServerState), args.length ≠ 2 →
       Server.login cp args sender s = (s, [(sender, "LOGIN:ACKSTATUS:3")])) ∧
    (∀ (cp : String → String → Bool) (u p : String) (sender : Sock)
       (s : ServerState), u = "" ∨ p = "" →
       Server.login cp [u, p] sender s = (s, [(sender, "LOGIN:ACKSTATUS:3")])) ∧
    (∀ (cp : String → String → Bool) (u p : String) (sender : Sock)
       (s : ServerState), ¬ (u = "" ∨ p = "") →
       dictLookup s.users u = none →
       Server.login cp [u, p] sender s = (s, [(sender, "LOGIN:ACKSTATUS:1")])) ∧
    (∀ (cp : String → String → Bool) (u p stored : String) (sender : Sock)
       (s : ServerState), ¬ (u = "" ∨ p = "") →
       dictLookup s.users u = some stored → cp p stored = false →
       Server.login cp [u, p] sender s = (s, [(sender, "LOGIN:ACKSTATUS:2")])) ∧
    (∀ (cp : String → String → Bool) (u p stored : String) (sender : Sock)
       (s : ServerState), ¬ (u = "" ∨ p = "") →
       dictLookup s.users u = some stored → cp p stored = true →
       (s.authenticated_clients.map (fun kv => kv.2)).contains u = true →
       Server.login cp [u, p] sender s = (s, [(sender, "LOGIN:ACKSTATUS:4")])) ∧
    (∀ (cp : String → String → Bool) (u p stored : String) (sender : Sock)
       (s : ServerState), ¬ (u = "" ∨ p = "") →
       dictLookup s.users u = some stored → cp p stored = true →
       (s.authenticated_clients.map (fun kv => kv.2)).contains u = false →
       Server.check_authorizations sender s.authenticated_clients = true →
       Server.login cp [u, p] sender s = (s, [(sender, "LOGIN:ACKSTATUS:5")])) ∧
    (∀ (cp : String → String → Bool) (u p stored : String) (sender : Sock)
       (s : ServerState), ¬ (u = "" ∨ p = "") →
       dictLookup s.users u = some stored → cp p stored = true →
       (s.authenticated_clients.map (fun kv => kv.2)).contains u = false →
       Server.check_authorizations sender s.authenticated_clients = false →
       Server.login cp [u, p] sender s =
         ({ s with authenticated_clients :=
              s.authenticated_clients ++ [(sender, u)] },
          [(sender, "LOGIN:ACKSTATUS:0")])) ∧
    (∀ (cp : String → String → Bool) (args : List String) (sender : Sock)
       (s : ServerState),
       ((s.authenticated_clients.map Prod.snd).Nodup →
         (((Server.login cp args sender s).1).authenticated_clients.map
             Prod.snd).Nodup)) := by
  refine ⟨?_, ?_, ?_, ?_, ?_, ?_, ?_, ?_⟩
  · intro cp args sender s hlen
    rcases args with _ | ⟨a, _ | ⟨b, _ | ⟨c, t⟩⟩⟩
    · rfl
    · rfl
    · exact absurd rfl hlen
    · rfl
  · intro cp u p sender s hemp
    simp only [Server.login]
    rw [if_pos hemp]
  · intro cp u p sender s hemp hlook
    simp only [Server.login]
    rw [if_neg hemp, hlook]
  · intro cp u p stored sender s hemp hlook hcp
    simp only [Server.login, hlook]
    rw [if_neg hemp, if_neg (by simp [hcp])]
  · intro cp u p stored sender s hemp hlook hcp hmem
    simp only [Server.login, hlook]
    rw [if_neg hemp, if_pos hcp, if_pos hmem]
  · intro cp u p stored sender s hemp hlook hcp hmem hauth
    simp only [Server.login, hlook]
    rw [if_neg hemp, if_pos hcp, if_neg (by simp only [hmem]; decide),
      if_pos hauth]
  · intro cp u p stored sender s hemp hlook hcp hmem hauth
    simp only [Server.login, hlook]
    rw [if_neg hemp, if_pos hcp, if_neg (by simp only [hmem]; decide),
      if_neg (by simp [hauth]), dictSet_append_of_no_key _ _ _ hauth]
  · intro cp args sender s hnd
    rcases args with _ | ⟨u, _ | ⟨p, _ | ⟨c, t⟩⟩⟩
    · exact hnd
    · exact hnd
    · by_cases h1 : u = "" ∨ p = ""
      · simp only [Server.login]
        rw [if_pos h1]
        exact hnd
      · cases hl : dictLookup s.users u with
        | none =>
          simp only [Server.login, hl]
          rw [if_neg h1]
          exact hnd
        | some stored =>
          simp only [Server.login, hl]
          rw [if_neg h1]
          by_cases h2 : cp p stored = true
          · rw [if_pos h2]
            by_cases h3 :
                (s.authenticated_clients.map (fun kv => kv.2)).contains u = true
            · rw [if_pos h3]
              exact hnd
            · rw [if_neg h3]
              by_cases h4 : Server.check_authorizations sender
                  s.authenticated_clients = true
              · rw [if_pos h4]
                exact hnd
              · rw [if_neg h4]
                show ((dictSet s.authenticated_clients sender u).map
                    Prod.snd).Nodup
                rw [dictSet_append_of_no_key _ _ _
                  (Bool.not_eq_true _ ▸ h4)]
                simpa [List.nodup_append, hnd] using h3
          · rw [if_neg h2]
            exact hnd
    · exact hnd

/-- Witness for C9 (amended): a wrong password answers ACKSTATUS:2 and a
fresh successful login answers ACKSTATUS:0, appending the unique binding. -/
theorem c9_witness :
    Server.login cpEq ["alice", "bad"] 9 c9_state =
      (c9_state, [(9, "LOGIN:ACKSTATUS:2")]) ∧
    Server.login cpEq ["bob", "pw2"] 9
        { c9_state with users := [("alice", "pw"), ("bob", "pw2")] } =
      ({ c9_state with
           users := [("alice", "pw"), ("bob", "pw2")]
           authenticated_clients := [(7, "alice"), (9, "bob")] },
       [(9, "LOGIN:ACKSTATUS:0")]) := by
  constructor
  · exact c9_login_statuses.2.2.2.1 cpEq "alice" "bad" "pw" 9 c9_state
      (by decide) (by decide) (by decide)
  · exact c9_login_statuses.2.2.2.2.2.2.1 cpEq "bob" "pw2" "pw2" 9
      { c9_state with users := [("alice", "pw"), ("bob", "pw2")] }
      (by decide) (by decide) (by decide) (by decide) (by decide)

/-- C10: the creator occupies player slot 0 and is the initial mover of a
new room; slot 0 is stable under joins; and an accepted placement writes
mark 1 exactly when the mover is the slot-0 player (the creator) and mark 2
otherwise. -/
theorem c10_creator_slot0_moves_first :
    (∀ creator : Sock, (Room.mk_new creator).players.get? 0 = some creator ∧
       (Room.mk_new creator).current_player = creator) ∧
    (∀ (r : Room) (sock : Sock) (mode : String) (creator : Sock),
       r.players.get? 0 = some creator →
       (r.update sock mode).players.get? 0 = some creator) ∧
    (∀ (r r' : Room) (row col : Int) (creator : Sock),
       r.players.get? 0 = some creator →
       r.update_matrix row col = some r' →
       r'.players.get? 0 = some creator ∧
       (r.current_player = creator →
         ∃ m, pySetCell r.matrix row col 1 = some m ∧ r'.matrix = m) ∧
       (r.current_player ≠ creator →
         ∃ m, pySetCell r.matrix row col 2 = some m ∧ r'.matrix = m)) := by
  refine ⟨?_, ?_, ?_⟩
  · intro creator
    exact ⟨rfl, rfl⟩
  · intro r sock mode creator h0
    cases hp : r.players with
    | nil => rw [hp] at h0; simp at h0
    | cons a t =>
      rw [hp] at h0
      simp only [List.get?] at h0
      obtain rfl := Option.some_inj.mp h0
      unfold Room.update
      by_cases h1 : mode = "PLAYER"
      · rw [if_pos h1]
        by_cases h2 : r.players.length < r.max_players
        · rw [if_pos h2]
          simp [hp]
        · rw [if_neg h2]
          simp [hp]
      · rw [if_neg h1]
        by_cases h2 : mode = "VIEWER"
        · rw [if_pos h2]
          simp [hp]
        · rw [if_neg h2]
          simp [hp]
  · intro r r' row col creator h0 hu
    obtain ⟨hpl, _, p0, hp0, hcase⟩ := update_matrix_spec hu
    rw [h0] at hp0
    obtain rfl := Option.some_inj.mp hp0
    refine ⟨by rw [hpl, h0], ?_, ?_⟩
    · intro hc
      rcases hcase with ⟨_, m, p1, hm, _, rfl⟩ | ⟨hne, _, _, _⟩
      · exact ⟨m, hm, (check_end_status_fields _).2.2.2.1⟩
      · exact absurd hc hne
    · intro hne
      rcases hcase with ⟨hc, _, _, _, _, _⟩ | ⟨_, m, hm, rfl⟩
      · exact absurd hc hne
      · exact ⟨m, hm, (check_end_status_fields _).2.2.2.1⟩

/-- Witness for C10: room creator 10 is slot 0 and first mover; after the
viewer join the slot is unchanged; player 10's placement writes mark 1. -/
theorem c10_witness :
    (Room.mk_new 10).current_player = 10 ∧
    (scn_room.update 12 "VIEWER").players.get? 0 = some 10 ∧
    ∃ m, pySetCell scn_room.matrix 0 0 1 = some m ∧ scn_room_after.matrix = m := by
  refine ⟨(c10_creator_slot0_moves_first.1 10).2, ?_, ?_⟩
  · exact c10_creator_slot0_moves_first.2.1 scn_room 12 "VIEWER" 10 (by decide)
  · exact (c10_creator_slot0_moves_first.2.2 scn_room scn_room_after 0 0 10
      (by decide) (by decide)).2.1 (by decide)

/-- C3 counterexample: on the board 111222000 both row 0 and row 1 are
uniformly non-Empty, yet the evaluation returns Win — refuting "Win iff
exactly one of the 8 lines is uniformly non-Empty" over all boards. -/
theorem c3_counterexample :
    ((mkBoardRoom [[1, 1, 1], [2, 2, 2], [0, 0, 0]]).check_end_status.has_end =
        true ∧
      (mkBoardRoom [[1, 1, 1], [2, 2, 2], [0, 0, 0]]).check_end_status.status_code =
        "0") ∧
    uniform_line_count [[1, 1, 1], [2, 2, 2], [0, 0, 0]] = 2 := by
  refine ⟨⟨?_, ?_⟩, ?_⟩ <;> decide

/-- C3 (amended): on every 3x3 board the evaluation reports Win (status
"0") iff AT LEAST one of the 8 lines is uniformly non-Empty, Draw (status
"1") iff no line matches and the board has no Empty cell, and Ongoing
(`has_end = false`) otherwise; the three outcomes are mutually exclusive
and exhaustive. -/
theorem c3_evaluate_characterization :
    ∀ m : List (List Nat), m.length = 3 → (∀ row ∈ m, row.length = 3) →
      (((mkBoardRoom m).check_end_status.has_end = true ∧
          (mkBoardRoom m).check_end_status.status_code = "0") ↔
        spec_win m = true) ∧
      (((mkBoardRoom m).check_end_status.has_end = true ∧
          (mkBoardRoom m).check_end_status.status_code = "1") ↔
        (spec_win m = false ∧ no_empty_cell m = true)) ∧
      ((mkBoardRoom m).check_end_status.has_end = false ↔
        (spec_win m = false ∧ no_empty_cell m = false)) := by
  intro m hm hrows
  obtain ⟨r0, r1, r2, rfl⟩ := List.length_eq_three.mp hm
  obtain ⟨a, b, c, rfl⟩ := List.length_eq_three.mp (hrows r0 (by simp))
  obtain ⟨d, e, f, rfl⟩ := List.length_eq_three.mp (hrows r1 (by simp))
  obtain ⟨g, h, i, rfl⟩ := List.length_eq_three.mp (hrows r2 (by simp))
  have h1 : Room.check_rows (mkBoardRoom [[a, b, c], [d, e, f], [g, h, i]]) =
      ((a == b && b == c && a != 0) || ((d == e && e == f && d != 0) ||
        ((g == h && h == i && g != 0) || false))) := rfl
  have h2 : Room.check_columns (mkBoardRoom [[a, b, c], [d, e, f], [g, h, i]]) =
      ((a == d && d == g && a != 0) || ((b == e && e == h && b != 0) ||
        ((c == f && f == i && c != 0) || false))) := rfl
  have h3 : Room.check_diagonals (mkBoardRoom [[a, b, c], [d, e, f], [g, h, i]]) =
      ((a == e && e == i && a != 0) || (c == e && e == g && c != 0)) := rfl
  have h4 : spec_win [[a, b, c], [d, e, f], [g, h, i]] =
      ((a == b && b == c && a != 0) || ((d == e && e == f && d != 0) ||
        ((g == h && h == i && g != 0) || ((a == d && d == g && a != 0) ||
        ((b == e && e == h && b != 0) || ((c == f && f == i && c != 0) ||
        ((a == e && e == i && a != 0) || ((c == e && e == g && c != 0) ||
          false)))))))) := rfl
  have hA : (Room.check_rows (mkBoardRoom [[a, b, c], [d, e, f], [g, h, i]]) ||
        Room.check_columns (mkBoardRoom [[a, b, c], [d, e, f], [g, h, i]]) ||
        Room.check_diagonals (mkBoardRoom [[a, b, c], [d, e, f], [g, h, i]])) =
      spec_win [[a, b, c], [d, e, f], [g, h, i]] := by
    rw [h1, h2, h3, h4]
    simp [Bool.or_assoc]
  have hB : (mkBoardRoom [[a, b, c], [d, e, f], [g, h, i]]).is_board_full = true ↔
      no_empty_cell [[a, b, c], [d, e, f], [g, h, i]] = true := by
    simp only [Room.is_board_full, mkBoardRoom, no_empty_cell, List.all_cons,
      List.all_nil, List.flatMap_cons, List.flatMap_nil, List.mem_cons,
      List.not_mem_nil, List.append_nil, List.cons_append, List.nil_append,
      Bool.and_eq_true, Bool.not_eq_true', beq_iff_eq, bne_iff_ne, ne_eq,
      Bool.and_true, decide_eq_false_iff_not, not_or, or_false]
    tauto
  unfold Room.check_end_status
  by_cases hcA : (Room.check_rows (mkBoardRoom [[a, b, c], [d, e, f], [g, h, i]]) ||
      Room.check_columns (mkBoardRoom [[a, b, c], [d, e, f], [g, h, i]]) ||
      Room.check_diagonals (mkBoardRoom [[a, b, c], [d, e, f], [g, h, i]])) = true
  · rw [if_pos hcA]
    have hw : spec_win [[a, b, c], [d, e, f], [g, h, i]] = true := by
      rw [← hA]
      exact hcA
    refine ⟨?_, ?_, ?_⟩ <;> simp [hw]
  · rw [if_neg hcA]
    have hw : spec_win [[a, b, c], [d, e, f], [g, h, i]] = false := by
      rcases Bool.eq_false_or_eq_true
          (spec_win [[a, b, c], [d, e, f], [g, h, i]]) with hh | hh
      · rw [← hA] at hh
        exact absurd hh hcA
      · exact hh
    by_cases hcB : (mkBoardRoom [[a, b, c], [d, e, f], [g, h, i]]).is_board_full =
        true
    · rw [if_pos hcB]
      have hf : no_empty_cell [[a, b, c], [d, e, f], [g, h, i]] = true := hB.mp hcB
      refine ⟨?_, ?_, ?_⟩ <;> simp [hw, hf]
    · rw [if_neg hcB]
      have hf : no_empty_cell [[a, b, c], [d, e, f], [g, h, i]] = false := by
        rcases Bool.eq_false_or_eq_true
            (no_empty_cell [[a, b, c], [d, e, f], [g, h, i]]) with hh | hh
        · exact absurd (hB.mpr hh) hcB
        · exact hh
      refine ⟨?_, ?_, ?_⟩ <;> simp [hw, hf, mkBoardRoom]

/-- Witness for C3 (amended) on a concrete drawn board: no line matches,
no cell is Empty, and the evaluation reports Draw (status "1"). -/
theorem c3_witness :
    (mkBoardRoom [[1, 2, 1], [2, 1, 2], [2, 1, 2]]).check_end_status.has_end =
      true ∧
    (mkBoardRoom [[1, 2, 1], [2, 1, 2], [2, 1, 2]]).check_end_status.status_code =
      "1" :=
  (c3_evaluate_characterization [[1, 2, 1], [2, 1, 2], [2, 1, 2]] (by decide)
    (by decide)).2.1.mpr ⟨by decide, by decide⟩

/-- C7: the board of any room (3x3, marks in {0,1,2}) serializes to the
9-character row-major digit string of the spec; concretely, the creator's
first accepted placement at column 0, row 0 (`PLACE:0:0`) on the empty
board of room "r1" sends `BOARDSTATUS:100000000` to both players and the
viewer and passes the turn to the second player. -/
theorem c7_board_serialization :
    (∀ r : Room, r.matrix.length = 3 → (∀ row ∈ r.matrix, row.length = 3) →
      (∀ x ∈ r.matrix.flatMap (fun row => row), x ≤ 2) →
      r.get_matrix_in_string = spec_serialize r.matrix ∧
      (r.get_matrix_in_string).length = 9) ∧
    (Server.handle_message_core cpEq hpId 10 ["PLACE", "0", "0"] scn_state =
        Server.DispatchResult.ok scn_state_after
          [(10, "BOARDSTATUS:100000000"), (11, "BOARDSTATUS:100000000"),
           (12, "BOARDSTATUS:100000000")] ∧
      dictLookup scn_state_after.rooms "r1" = some scn_room_after ∧
      scn_room_after.current_player = 11) := by
  constructor
  · intro r hm hrows hcells
    have cell_str : ∀ x : Nat, x ≤ 2 → toString x = String.mk [cellChar x] := by
      intro x hx
      interval_cases x <;> rfl
    obtain ⟨r0, r1, r2, hm3⟩ := List.length_eq_three.mp hm
    obtain ⟨a, b, c, h0⟩ := List.length_eq_three.mp (hrows r0 (by rw [hm3]; simp))
    obtain ⟨d, e, f, h1⟩ := List.length_eq_three.mp (hrows r1 (by rw [hm3]; simp))
    obtain ⟨g, h, i, h2⟩ := List.length_eq_three.mp (hrows r2 (by rw [hm3]; simp))
    rw [h0, h1, h2] at hm3
    rw [hm3] at hcells
    have heq : r.get_matrix_in_string = spec_serialize r.matrix := by
      unfold Room.get_matrix_in_string spec_serialize
      rw [hm3]
      simp only [List.flatMap_cons, List.flatMap_nil, List.append_nil,
        List.cons_append, List.nil_append, List.map_cons, List.map_nil]
      rw [cell_str a (hcells a (by simp)), cell_str b (hcells b (by simp)),
        cell_str c (hcells c (by simp)), cell_str d (hcells d (by simp)),
        cell_str e (hcells e (by simp)), cell_str f (hcells f (by simp)),
        cell_str g (hcells g (by simp)), cell_str h (hcells h (by simp)),
        cell_str i (hcells i (by simp))]
      rfl
    refine ⟨heq, ?_⟩
    rw [heq]
    unfold spec_serialize
    rw [hm3]
    rfl
  · refine ⟨by decide, by decide, rfl⟩

/-- Witness for C7: the board of `scn_room_after` serializes per the spec
digit map and has length 9 (value "100000000"). -/
theorem c7_witness :
    scn_room_after.get_matrix_in_string = spec_serialize scn_room_after.matrix ∧
    (scn_room_after.get_matrix_in_string).length = 9 :=
  c7_board_serialization.1 scn_room_after (by decide) (by decide) (by decide)

/-! ### Lemmas about the forfeit winner scan -/

theorem find_by_value {ac : List (Sock × String)}
    (hnd : (ac.map Prod.snd).Nodup) {kv : Sock × String} (hmem : kv ∈ ac) :
    ac.find? (fun x => x.2 = kv.2) = some kv := by
  induction ac with
  | nil => simp at hmem
  | cons y rest ih =>
    rcases List.mem_cons.mp hmem with rfl | hmem'
    · exact List.find?_cons_of_pos _ (by simp)
    · have hy : ¬ y.2 = kv.2 := by
        intro hh
        have h1 : y.2 ∉ rest.map Prod.snd :=
          (List.nodup_cons.mp (by simpa using hnd)).1
        exact h1 (hh ▸ List.mem_map_of_mem Prod.snd hmem')
      rw [List.find?_cons_of_neg _ (by simpa using hy)]
      exact ih (List.nodup_cons.mp (by simpa using hnd)).2 hmem'

theorem key_nodup_ext {l : List (Sock × String)}
    (hnd : (l.map Prod.fst).Nodup) {x y : Sock × String} (hx : x ∈ l)
    (hy : y ∈ l) (hk : x.1 = y.1) : x = y := by
  induction l with
  | nil => simp at hx
  | cons z rest ih =>
    have hz : z.1 ∉ rest.map Prod.fst := (List.nodup_cons.mp (by simpa using hnd)).1
    rcases List.mem_cons.mp hx with rfl | hx' <;>
      rcases List.mem_cons.mp hy with rfl | hy'
    · rfl
    · exact absurd (hk ▸ List.mem_map_of_mem Prod.fst hy') hz
    · exact absurd (hk ▸ List.mem_map_of_mem Prod.fst hx') hz
    · exact ih (List.nodup_cons.mp (by simpa using hnd)).2 hx' hy'

theorem forfeit_scan_step {ac : List (Sock × String)} {target : Sock}
    {wn : String} (hk : (ac.map Prod.fst).Nodup) (hv : (ac.map Prod.snd).Nodup)
    (hw : (target, wn) ∈ ac) {kv : Sock × String} (hmem : kv ∈ ac) :
    (match Server.get_key_by_value ac kv.2 with
      | some k => is_same_socket k target
      | none => false) = true ↔ kv = (target, wn) := by
  have hfind : Server.get_key_by_value ac kv.2 = some kv.1 := by
    unfold Server.get_key_by_value
    rw [find_by_value hv hmem]
    rfl
  rw [hfind]
  constructor
  · intro hh
    simp only [is_same_socket, beq_iff_eq] at hh
    exact key_nodup_ext hk hmem hw hh
  · intro hh
    subst hh
    simp [is_same_socket]

theorem scan_step_val (ac : List (Sock × String)) (target : Sock)
    (kv : Sock × String) (base : String) :
    (match Server.get_key_by_value ac kv.2 with
      | some k =>
        if is_same_socket k target then base ++ kv.2 else base
      | none => base) =
    (if (match Server.get_key_by_value ac kv.2 with
         | some k => is_same_socket k target
         | none => false) = true
     then base ++ kv.2 else base) := by
  rcases hcase : Server.get_key_by_value ac kv.2 with _ | k
  · simp
  · by_cases hs : is_same_socket k target = true
    · simp [hs]
    · simp [hs]

theorem forfeit_scan_fold {ac : List (Sock × String)} {target : Sock}
    {wn : String} (hk : (ac.map Prod.fst).Nodup) (hv : (ac.map Prod.snd).Nodup)
    (hw : (target, wn) ∈ ac) :
    ∀ (l : List (Sock × String)), l.Nodup → (∀ kv ∈ l, kv ∈ ac) →
      ∀ base : String,
      l.foldl
        (fun board_status kv =>
          match Server.get_key_by_value ac kv.2 with
          | some k =>
            if is_same_socket k target then board_status ++ kv.2 else board_status
          | none => board_status)
        base =
      (if (target, wn) ∈ l then base ++ wn else base) := by
  intro l
  induction l with
  | nil =>
    intro _ _ base
    simp
  | cons kv rest ih =>
    intro hlnd hsub base
    rw [List.foldl_cons, scan_step_val]
    by_cases hkv : kv = (target, wn)
    · rw [if_pos ((forfeit_scan_step hk hv hw (hsub kv (by simp))).mpr hkv)]
      have hrest : (target, wn) ∉ rest := hkv ▸ (List.nodup_cons.mp hlnd).1
      rw [ih (List.nodup_cons.mp hlnd).2
        (fun x hx => hsub x (List.mem_cons_of_mem kv hx)) (base ++ kv.2)]
      rw [if_neg hrest, if_pos (by simp [hkv]), hkv]
    · have hfalse : ¬ ((match Server.get_key_by_value ac kv.2 with
          | some k => is_same_socket k target
          | none => false) = true) := fun hh =>
        hkv ((forfeit_scan_step hk hv hw (hsub kv (by simp))).mp hh)
      rw [if_neg hfalse]
      rw [ih (List.nodup_cons.mp hlnd).2
        (fun x hx => hsub x (List.mem_cons_of_mem kv hx)) base]
      by_cases hmr : (target, wn) ∈ rest
      · rw [if_pos hmr, if_pos (List.mem_cons_of_mem kv hmr)]
      · rw [if_neg hmr, if_neg (by
          intro hh
          rcases List.mem_cons.mp hh with hh2 | hh2
          · exact hkv hh2.symm
          · exact hmr hh2)]

theorem forfeit_scan_eq {ac : List (Sock × String)} {target : Sock}
    {wn : String} (hk : (ac.map Prod.fst).Nodup) (hv : (ac.map Prod.snd).Nodup)
    (hw : (target, wn) ∈ ac) (base : String) :
    Server.forfeit_scan ac target base = base ++ wn := by
  unfold Server.forfeit_scan
  rw [forfeit_scan_fold hk hv hw ac (hk.of_map Prod.fst) (fun kv h => h) base,
    if_pos hw]

/-- C5 counterexample: a valid forfeit (current mover 20 of the in-progress
room "fr") succeeds, but afterwards no room named "fr" exists in the
registry at all: `forfeit` deletes the room without ever setting `has_end`
or `status_code`, so "the room becomes Ended(Forfeit)" is false. -/
theorem c5_counterexample :
    (Server.forfeit 20 "fr" c5_state).isSome = true ∧
    (Server.forfeit 20 "fr" c5_state).map
        (fun p => dictLookup p.1.rooms "fr") = some none := by
  constructor
  · decide
  · decide

/-- C5 (amended): a forfeit by a player of an in-progress room (the router
runs it only when the forfeiter is the current mover) declares the other
player winner and sends `GAMEEND:<board>:2:<winner name>` to both players
and every viewer; the room is then removed from the registry rather than
being marked Ended(Forfeit). -/
theorem c5_forfeit_behavior :
    ∀ (s : ServerState) (rm : String) (room : Room) (sender p0 p1 : Sock)
      (otherName : String),
      dictLookup s.rooms rm = some room →
      room.players = [p0, p1] →
      sender = p0 ∨ sender = p1 →
      room.current_player = sender →
      ((if p0 = sender then p1 else p0), otherName) ∈ s.authenticated_clients →
      (s.authenticated_clients.map Prod.fst).Nodup →
      (s.authenticated_clients.map Prod.snd).Nodup →
      ∃ s', Server.forfeit sender rm s =
          some (s',
            [(sender,
              "GAMEEND:" ++ room.get_matrix_in_string ++ ":2:" ++ otherName),
             ((if p0 = sender then p1 else p0),
              "GAMEEND:" ++ room.get_matrix_in_string ++ ":2:" ++ otherName)] ++
              room.send_to_all_viewers
                ("GAMEEND:" ++ room.get_matrix_in_string ++ ":2:" ++ otherName)) ∧
        dictLookup s'.rooms rm = none := by
  intro s rm room sender p0 p1 otherName hlook hpl hsp hcur hmem hk hv
  have hnt : room.get_next_turn_player =
      some (if p0 = sender then p1 else p0) := by
    unfold Room.get_next_turn_player
    rw [hpl]
    simp only [List.get?]
    rw [hcur]
    by_cases hps : p0 = sender
    · rw [if_pos hps.symm, if_pos hps]
    · rw [if_neg (fun hh => hps hh.symm), if_neg hps]
  have hap : room.get_another_player sender =
      some (if p0 = sender then p1 else p0) := by
    unfold Room.get_another_player
    rw [hpl]
    simp only [List.get?]
    by_cases hps : p0 = sender
    · rw [if_pos hps, if_pos hps]
    · rw [if_neg hps, if_neg hps]
  have hscan : Server.forfeit_scan s.authenticated_clients
      (if p0 = sender then p1 else p0)
      ("GAMEEND:" ++ room.get_matrix_in_string ++ ":2:") =
      "GAMEEND:" ++ room.get_matrix_in_string ++ ":2:" ++ otherName :=
    forfeit_scan_eq hk hv hmem _
  refine
    ⟨{ s with
         clients :=
           dictSet
             (dictSet
               (dictRemove (dictRemove s.clients sender)
                 (if p0 = sender then p1 else p0))
               sender none)
             (if p0 = sender then p1 else p0) none
         rooms := dictRemove s.rooms rm }, ?_, ?_⟩
  · unfold Server.forfeit
    rw [hlook]
    simp only [Option.bind_eq_bind, Option.some_bind]
    rw [hnt]
    simp only [Option.some_bind]
    rw [hap]
    simp only [Option.some_bind]
    rw [hscan]
  · rw [dictLookup_dictRemove, if_pos rfl]

/-- Witness for C5 (amended): in `c5_state` the current mover 20 forfeits
room "fr"; opponent 21 ("Q") is declared winner, both players and viewer
22 receive `GAMEEND:120000000:2:Q`, and the room is gone. -/
theorem c5_witness :
    ∃ s', Server.forfeit 20 "fr" c5_state =
        some (s',
          [(20, "GAMEEND:" ++ c5_room.get_matrix_in_string ++ ":2:" ++ "Q"),
           ((if (20 : Sock) = 20 then 21 else 20),
            "GAMEEND:" ++ c5_room.get_matrix_in_string ++ ":2:" ++ "Q")] ++
            c5_room.send_to_all_viewers
              ("GAMEEND:" ++ c5_room.get_matrix_in_string ++ ":2:" ++ "Q")) ∧
      dictLookup s'.rooms "fr" = none :=
  c5_forfeit_behavior c5_state "fr" c5_room 20 20 21 "Q" (by decide) rfl
    (Or.inl rfl) rfl (by decide) (by decide) (by decide)

end TTT
